import Mathlib

/-!
Shallow embedding of the doomscroller workflow-orchestration core
(src/services/workflow-orchestrator.ts, src/lib/database.ts,
src/services/video-generator.ts, and the analytics collector's
engagement-rate computation), together with proofs about the claims of
the specification.

External effects (prompt generation, video synthesis, platform uploads,
the best-effort topic save) are modelled by an `Env` record that fixes
the outcome of each external call; Firestore is modelled by an explicit
`DBState`; JS `Date.now()` timestamps are modelled as `Nat` ticks taken
from the environment.
-/

namespace DS

/-! ## Data model (src/types, inlined in youtube-poster.ts lines 225-330) -/

inductive Platform where
  | youtube
  | instagram
  | tiktok
deriving DecidableEq, Repr

inductive PostStatus where
  | pending
  | posted
  | failed
deriving DecidableEq, Repr

/-- `PlatformPost` of the source: platform name, optional external post id,
optional post timestamp, status, optional error text, optional metrics. -/
structure PlatformPost where
  platform : Platform
  postId : Option String
  postedAt : Option Nat
  status : PostStatus
  error : Option String
  views : Option Nat
  likes : Option Nat
  comments : Option Nat
deriving DecidableEq, Repr

inductive VideoStatus where
  | generating
  | ready
  | posted
  | failed
deriving DecidableEq, Repr

/-- `VideoMetadata` of the source. -/
structure VideoMetadata where
  id : String
  niche : String
  prompt : String
  videoUrl : String
  storagePath : String
  duration : Nat
  createdAt : Nat
  status : VideoStatus
  platforms : List PlatformPost
deriving DecidableEq, Repr

inductive JobStatus where
  | queued
  | running
  | completed
  | failed
deriving DecidableEq, Repr

inductive JobType where
  | generate
  | post
  | analytics
deriving DecidableEq, Repr

/-- `WorkflowJob` of the source (`type` is renamed `jobType`). -/
structure WorkflowJob where
  id : String
  jobType : JobType
  status : JobStatus
  niche : String
  videoId : Option String
  createdAt : Nat
  startedAt : Option Nat
  completedAt : Option Nat
  error : Option String
  retryCount : Nat
deriving DecidableEq, Repr

inductive TopicSource where
  | googleTrends
  | twitter
  | manual
deriving DecidableEq, Repr

/-- `TrendingTopic` of the source. -/
structure TrendingTopic where
  topic : String
  score : Int
  source : TopicSource
  relatedKeywords : List String
  fetchedAt : Nat
deriving DecidableEq, Repr

structure YouTubeAccount where
  channelId : String
  refreshToken : String
deriving DecidableEq, Repr

structure InstagramAccount where
  accountId : String
  accessToken : String
deriving DecidableEq, Repr

/-- TikTok credential bundle: note that `accessToken` is OPTIONAL in the
source (`tiktok?: { username: string; accessToken?: string }`). -/
structure TikTokAccount where
  username : String
  accessToken : Option String
deriving DecidableEq, Repr

structure SocialAccountConfig where
  youtube : Option YouTubeAccount
  instagram : Option InstagramAccount
  tiktok : Option TikTokAccount
deriving DecidableEq, Repr

structure PostingSchedule where
  timesPerDay : Nat
  preferredTimes : List String
  timezone : String
deriving DecidableEq, Repr

/-- `ContentNiche` of the source. -/
structure ContentNiche where
  id : String
  name : String
  description : String
  keywords : List String
  promptTemplate : String
  targetAudience : String
  postingSchedule : PostingSchedule
  socialAccounts : SocialAccountConfig
deriving DecidableEq, Repr

inductive Engagement where
  | low
  | medium
  | high
deriving DecidableEq, Repr

/-- `PromptGenerationResponse` of the source. -/
structure PromptResponse where
  prompt : String
  description : String
  suggestedHashtags : List String
  estimatedEngagement : Engagement
deriving DecidableEq, Repr

/-- The part of `VideoGenerationResponse` the orchestrator consumes. -/
structure VideoGenResponse where
  videoUrl : String
  duration : Nat
deriving DecidableEq, Repr

/-! ## Record store (src/lib/database.ts), modelled as explicit state -/

/-- Firestore contents touched by the orchestration core: the `videos`,
`jobs`, `niches` collections and the append-only `trending` log. -/
structure DBState where
  videos : List VideoMetadata
  jobs : List WorkflowJob
  niches : List ContentNiche
  trending : List TrendingTopic
deriving DecidableEq, Repr

def DBState.init : DBState := ⟨[], [], [], []⟩

/-- `getVideoMetadata` (database.ts lines 38-54): doc lookup by id. -/
def getVideoMetadata (st : DBState) (videoId : String) : Option VideoMetadata :=
  st.videos.find? (fun v => v.id == videoId)

/-- `saveVideoMetadata` (database.ts lines 25-36): Firestore `set`, i.e.
upsert by document id. -/
def saveVideoMetadata (st : DBState) (v : VideoMetadata) : DBState :=
  if st.videos.any (fun w => w.id == v.id) then
    { st with videos := st.videos.map (fun w => if w.id == v.id then v else w) }
  else
    { st with videos := st.videos ++ [v] }

/-- `updateVideoStatus` (database.ts lines 56-64): update of the `status`
field of the matching document. -/
def dbUpdateVideoStatus (st : DBState) (videoId : String) (status : VideoStatus) : DBState :=
  { st with videos :=
      st.videos.map (fun v => if v.id == videoId then { v with status := status } else v) }

/-- `getVideosByNiche` (database.ts lines 66-86).  The `createdAt`-descending
ordering is immaterial here: the result only feeds `previousPrompts`, whose
effect is folded into the environment's prompt-generation outcome. -/
def getVideosByNiche (st : DBState) (niche : String) (limit : Nat) : List VideoMetadata :=
  (st.videos.filter (fun v => v.niche == niche)).take limit

/-- `getJob` (database.ts lines 210-228). -/
def getJob (st : DBState) (jobId : String) : Option WorkflowJob :=
  st.jobs.find? (fun j => j.id == jobId)

/-- `getContentNiche` (database.ts lines 100-108). -/
def getContentNiche (st : DBState) (nicheId : String) : Option ContentNiche :=
  st.niches.find? (fun n => n.id == nicheId)

/-- `createJob` (database.ts lines 159-180): the store assigns the id, the
caller supplies the rest; `startedAt`/`completedAt` start out null. -/
def createJob (st : DBState) (job : WorkflowJob) : DBState :=
  { st with jobs := st.jobs ++ [job] }

/-- The update applied to one job document by `updateJobStatus`
(database.ts lines 182-208).  The source builds `updates = { status }`,
then checks `status === "running" && !updates.startedAt` — the second
conjunct inspects the freshly created `updates` object, which never holds
`startedAt` at that point, so it is vacuously true and is dropped here.
`if (error)` is a JS truthiness test, so an empty message is not recorded. -/
def updateJobStatusRecord (job : WorkflowJob) (status : JobStatus)
    (error : Option String) (now : Nat) : WorkflowJob :=
  let job := { job with status := status }
  let job := if status = JobStatus.running then { job with startedAt := some now } else job
  let job :=
    if status = JobStatus.completed ∨ status = JobStatus.failed then
      { job with completedAt := some now }
    else job
  match error with
  | some e => if e = "" then job else { job with error := some e }
  | none => job

/-- `updateJobStatus` lifted to the store: update of the matching document. -/
def dbUpdateJobStatus (st : DBState) (jobId : String) (status : JobStatus)
    (error : Option String) (now : Nat) : DBState :=
  { st with jobs :=
      st.jobs.map (fun j =>
        if j.id == jobId then updateJobStatusRecord j status error now else j) }

/-- `saveTrendingTopics` (database.ts lines 232-251): batch append to the
`trending` log. -/
def dbSaveTrendingTopics (st : DBState) (topics : List TrendingTopic) : DBState :=
  { st with trending := st.trending ++ topics }

/-! ## String helpers (JS `toLowerCase` / `includes`) -/

/-- `leadsWith needle hay`: `needle` is an initial segment of `hay`. -/
def leadsWith : List Char → List Char → Bool
  | [], _ => true
  | _ :: _, [] => false
  | c :: cs, d :: ds => c == d && leadsWith cs ds

/-- `containsChars hay needle`: JS `hay.includes(needle)`. -/
def containsChars : List Char → List Char → Bool
  | [], needle => needle.isEmpty
  | c :: t, needle => leadsWith needle (c :: t) || containsChars t needle

/-- JS `s.includes(sub)` on strings. -/
def strIncludes (s sub : String) : Bool :=
  containsChars s.data sub.data

/-- JS `s.toLowerCase()` (the niche names involved are ASCII). -/
def strLower (s : String) : String :=
  ⟨s.data.map Char.toLower⟩

/-! ## Style inference (workflow-orchestrator.ts lines 299-315) -/

inductive Style where
  | educational
  | motivational
  | entertainment
  | news
deriving DecidableEq, Repr

/-- `getStyleFromNiche` (workflow-orchestrator.ts lines 299-315). -/
def getStyleFromNiche (niche : ContentNiche) : Style :=
  let nicheNameLower := strLower niche.name
  if strIncludes nicheNameLower "education" || strIncludes nicheNameLower "learn"
      || strIncludes nicheNameLower "tutorial" then
    Style.educational
  else if strIncludes nicheNameLower "motivation" || strIncludes nicheNameLower "inspire"
      || strIncludes nicheNameLower "success" then
    Style.motivational
  else if strIncludes nicheNameLower "news" || strIncludes nicheNameLower "current"
      || strIncludes nicheNameLower "trending" then
    Style.news
  else
    Style.entertainment

/-! ## Engagement rate (analytics collector, `calculateEngagementRate`) -/

/-- `calculateEngagementRate` of the analytics collector (the `shares`
parameter defaults to `0` at the YouTube call site).  JS numbers are
modelled as rationals; the concrete values of the claims are exact in
both representations. -/
def calculateEngagementRate (views likes comments shares : ℚ) : ℚ :=
  if views = 0 then 0
  else
    let totalEngagements := likes + comments + shares
    totalEngagements / views * 100

/-! ## Polling loops of the video-generation adapter
(video-generator.ts, `generateWithFal` lines 105-138 and
`generateWithReplicate` lines 187-217)

`statuses i` is the status string returned by the `i`-th poll and
`urls i` the asset URL carried alongside it.  The `fuel` argument is the
number of loop iterations still allowed (`maxAttempts - attempts`); each
iteration performs exactly one poll, and the second component counts the
polls performed. -/

/-- Body of the fal.ai polling loop. -/
def falPollAux (statuses urls : Nat → String) : Nat → Nat → Except String String × Nat
  | _, 0 => (Except.error "Video generation timed out", 0)
  | attempt, fuel + 1 =>
    let status := statuses attempt
    if status == "COMPLETED" then
      (Except.ok (urls attempt), 1)
    else if status == "FAILED" then
      (Except.error "Video generation failed", 1)
    else
      ((falPollAux statuses urls (attempt + 1) fuel).1,
        (falPollAux statuses urls (attempt + 1) fuel).2 + 1)

/-- The fal.ai polling loop with its `maxAttempts = 60` ceiling. -/
def falPollLoop (statuses urls : Nat → String) : Except String String × Nat :=
  falPollAux statuses urls 0 60

/-- Body of the Replicate polling loop (`failed` and `canceled` throw
``Video generation ${status}``). -/
def replicatePollAux (statuses output : Nat → String) :
    Nat → Nat → Except String String × Nat
  | _, 0 => (Except.error "Video generation timed out", 0)
  | attempt, fuel + 1 =>
    let status := statuses attempt
    if status == "succeeded" then
      (Except.ok (output attempt), 1)
    else if status == "failed" || status == "canceled" then
      (Except.error ("Video generation " ++ status), 1)
    else
      ((replicatePollAux statuses output (attempt + 1) fuel).1,
        (replicatePollAux statuses output (attempt + 1) fuel).2 + 1)

/-- The Replicate polling loop with its `maxAttempts = 60` ceiling. -/
def replicatePollLoop (statuses output : Nat → String) : Except String String × Nat :=
  replicatePollAux statuses output 0 60

/-! ## Environment of external outcomes for one orchestration run -/

/-- Outcome of every external call made during one run of
`generateAndPostVideo`, plus the store-assigned job id, the
`uuidv4()` video id, and the clock. -/
structure Env where
  now : Nat
  freshJobId : String
  freshVideoId : String
  /-- Result of `trendingTopics.getTrendingForNiche` (never throws: the
  adapter swallows its own errors and returns `[]`). -/
  topics : List TrendingTopic
  /-- Outcome of `db.saveTrendingTopics` (Firestore batch commit). -/
  saveTopics : Except String Unit
  /-- Outcome of `promptGenerator.generatePrompt`. -/
  promptResult : Except String PromptResponse
  /-- Outcome of `videoGenerator.generateVideo`. -/
  videoGen : Except String VideoGenResponse
  /-- Outcome of `videoGenerator.downloadVideo` (buffer contents elided). -/
  download : Except String Unit
  /-- Outcome of `storage.uploadVideo`: `(publicUrl, storagePath)`. -/
  upload : Except String (String × String)
  /-- Outcome of the YouTube upload: `result.videoId`. -/
  youtubePost : Except String String
  /-- Outcome of the Instagram reel post: `result.mediaId`. -/
  instagramPost : Except String String
  /-- Outcome of the TikTok post: `result.publishId`. -/
  tiktokPost : Except String String

/-! ## Per-platform posting (workflow-orchestrator.ts lines 169-285) -/

/-- The `PlatformPost` entry pushed after a successful platform call. -/
def mkPostedEntry (p : Platform) (postId : String) (now : Nat) : PlatformPost :=
  { platform := p, postId := some postId, postedAt := some now,
    status := PostStatus.posted, error := none,
    views := none, likes := none, comments := none }

/-- `postToYouTube` (lines 172-205): upload first; on success, read the
video record, push a `posted` entry and re-persist; every error is caught
at this boundary and leaves the store untouched. -/
def postToYouTube (env : Env) (videoId : String) (st : DBState) : DBState :=
  match env.youtubePost with
  | Except.error _ => st
  | Except.ok externalId =>
    match getVideoMetadata st videoId with
    | none => st
    | some video =>
      saveVideoMetadata st
        { video with platforms :=
            video.platforms ++ [mkPostedEntry Platform.youtube externalId env.now] }

/-- `postToInstagram` (lines 210-244): reads the video record first
(`Video not found` throws into the same catch), then posts; every error is
caught at this boundary and leaves the store untouched. -/
def postToInstagram (env : Env) (videoId : String) (st : DBState) : DBState :=
  match getVideoMetadata st videoId with
  | none => st
  | some video =>
    match env.instagramPost with
    | Except.error _ => st
    | Except.ok mediaId =>
      saveVideoMetadata st
        { video with platforms :=
            video.platforms ++ [mkPostedEntry Platform.instagram mediaId env.now] }

/-- `postToTikTok` (lines 249-285): same shape as `postToYouTube`. -/
def postToTikTok (env : Env) (videoId : String) (st : DBState) : DBState :=
  match env.tiktokPost with
  | Except.error _ => st
  | Except.ok publishId =>
    match getVideoMetadata st videoId with
    | none => st
    | some video =>
      saveVideoMetadata st
        { video with platforms :=
            video.platforms ++ [mkPostedEntry Platform.tiktok publishId env.now] }

/-- Enablement condition for YouTube in `postToAllPlatforms` (line 145):
`if (niche.socialAccounts.youtube)` — object presence. -/
def youtubeEnabled (niche : ContentNiche) : Bool :=
  niche.socialAccounts.youtube.isSome

/-- Enablement condition for Instagram (line 152): object presence. -/
def instagramEnabled (niche : ContentNiche) : Bool :=
  niche.socialAccounts.instagram.isSome

/-- Enablement condition for TikTok (line 159):
`if (niche.socialAccounts.tiktok?.accessToken)` — JS truthiness of the
optional access-token string, so an absent or empty token disables TikTok
even when the credential bundle itself is present. -/
def tiktokEnabled (niche : ContentNiche) : Bool :=
  match niche.socialAccounts.tiktok with
  | none => false
  | some acct =>
    match acct.accessToken with
    | none => false
    | some token => token ≠ ""

/-- `postToAllPlatforms` (lines 135-167) under the SERIALIZED schedule:
each conditional attempt runs its whole read-modify-write before the next
begins, and none throws.  The source awaits `Promise.allSettled` over the
three attempts, so their read/write actions on the shared document can
interleave; that schedule-sensitive semantics is modelled by
`postToAllPlatformsSched` below, of which this serialized composition is
the nil-schedule instance.  Claims that are insensitive to the schedule
(which attempts occur; that only `posted` entries are ever appended) are
proved against this form. -/
def postToAllPlatforms (env : Env) (videoId : String)
    (_description : String) (_hashtags : List String)
    (niche : ContentNiche) (st : DBState) : DBState :=
  let st := if youtubeEnabled niche then postToYouTube env videoId st else st
  let st := if instagramEnabled niche then postToInstagram env videoId st else st
  let st := if tiktokEnabled niche then postToTikTok env videoId st else st
  st

/-! ## The run (workflow-orchestrator.ts, `generateAndPostVideo` lines 33-130) -/

/-- Lift an external outcome into the body's error monad, attaching the
store state observed at the moment of the throw. -/
def liftE (st : DBState) : Except String α → Except (String × DBState) α
  | Except.ok a => Except.ok a
  | Except.error e => Except.error (e, st)

/-- The `VideoMetadata` literal built in step 5 of `generateAndPostVideo`
(lines 95-105). -/
def mkRunVideoMetadata (env : Env) (niche : ContentNiche) (promptResponse : PromptResponse)
    (videoResponse : VideoGenResponse) (publicUrl storagePath : String) : VideoMetadata :=
  { id := env.freshVideoId, niche := niche.id, prompt := promptResponse.prompt,
    videoUrl := publicUrl, storagePath := storagePath,
    duration := videoResponse.duration, createdAt := env.now,
    status := VideoStatus.ready, platforms := [] }

/-- Steps 1-7 of `generateAndPostVideo`, i.e. the body of its `try` block
after job creation.  An error carries the state at the time of the throw;
the surrounding catch turns it into a failed job. -/
def runBody (env : Env) (niche : ContentNiche) (jobId : String) (st : DBState) :
    Except (String × DBState) (String × DBState) :=
  -- Step 1: fetch trending topics; save them only when non-empty.
  match (if env.topics.length > 0 then
           match env.saveTopics with
           | Except.ok _ => Except.ok (dbSaveTrendingTopics st env.topics)
           | Except.error e => Except.error (e, st)
         else Except.ok st : Except (String × DBState) DBState) with
  | Except.error e => Except.error e
  | Except.ok st =>
    -- Step 2: generate prompt (recent prompts and style feed the adapter,
    -- whose outcome the environment fixes).
    let _previousPrompts := (getVideosByNiche st niche.id 10).map (fun v => v.prompt)
    let _style := getStyleFromNiche niche
    match liftE st env.promptResult with
    | Except.error e => Except.error e
    | Except.ok promptResponse =>
      -- Step 3: generate video (the id is drawn before the synthesis call).
      let videoId := env.freshVideoId
      match liftE st env.videoGen with
      | Except.error e => Except.error e
      | Except.ok videoResponse =>
        -- Step 4: download and store video.
        match liftE st env.download with
        | Except.error e => Except.error e
        | Except.ok _ =>
          match liftE st env.upload with
          | Except.error e => Except.error e
          | Except.ok (publicUrl, storagePath) =>
            -- Step 5: save video metadata.
            let st := saveVideoMetadata st
              (mkRunVideoMetadata env niche promptResponse videoResponse publicUrl storagePath)
            -- Step 6: post to social media platforms.
            let st := postToAllPlatforms env videoId promptResponse.description
              promptResponse.suggestedHashtags niche st
            -- Step 7: update job status.
            let st := dbUpdateJobStatus st jobId JobStatus.completed none env.now
            let st := dbUpdateVideoStatus st videoId VideoStatus.posted
            Except.ok (videoId, st)

/-- The job record created at the top of `generateAndPostVideo`. -/
def initialJob (env : Env) (niche : ContentNiche) : WorkflowJob :=
  { id := env.freshJobId, jobType := JobType.generate, status := JobStatus.queued,
    niche := niche.id, videoId := none, createdAt := env.now,
    startedAt := none, completedAt := none, error := none, retryCount := 0 }

/-- `generateAndPostVideo` (lines 33-130): create the job, move it to
`running`, run the body; the catch marks the job failed with the error
message and rethrows. -/
def generateAndPostVideo (env : Env) (niche : ContentNiche) (st : DBState) :
    Except String String × DBState :=
  let st := createJob st (initialJob env niche)
  let st := dbUpdateJobStatus st env.freshJobId JobStatus.running none env.now
  match runBody env niche env.freshJobId st with
  | Except.ok (videoId, st') => (Except.ok videoId, st')
  | Except.error (msg, st') =>
    (Except.error msg, dbUpdateJobStatus st' env.freshJobId JobStatus.failed (some msg) env.now)

/-- `retryFailedJob` (lines 320-340): requires an existing job in `failed`
status and a resolvable niche, then performs the full run from scratch;
every error propagates. -/
def retryFailedJob (env : Env) (jobId : String) (st : DBState) :
    Except String Unit × DBState :=
  match getJob st jobId with
  | none => (Except.error "Job not found or not in failed status", st)
  | some job =>
    if job.status = JobStatus.failed then
      match getContentNiche st job.niche with
      | none => (Except.error "Niche not found", st)
      | some niche =>
        match generateAndPostVideo env niche st with
        | (Except.ok _, st') => (Except.ok (), st')
        | (Except.error e, st') => (Except.error e, st')
    else (Except.error "Job not found or not in failed status", st)

/-! ## Store lemmas -/

/-- `find?` over a replace-at-matches map: when the replacement preserves
the predicate on matching elements, lookup commutes with the update. -/
theorem find?_update {α : Type} (l : List α) (p : α → Bool) (g : α → α)
    (h : ∀ a, p a = true → p (g a) = true) :
    (l.map (fun a => if p a then g a else a)).find? p = (l.find? p).map g := by
  induction l with
  | nil => rfl
  | cons a t ih =>
    by_cases hp : p a = true
    · simp [List.find?_cons, hp, h a hp]
    · simp only [Bool.not_eq_true] at hp
      simp [List.find?_cons, hp, ih]

@[simp] theorem createJob_videos (st : DBState) (j : WorkflowJob) :
    (createJob st j).videos = st.videos := rfl

@[simp] theorem createJob_niches (st : DBState) (j : WorkflowJob) :
    (createJob st j).niches = st.niches := rfl

@[simp] theorem dbUpdateJobStatus_videos (st : DBState) (jid : String) (s : JobStatus)
    (e : Option String) (n : Nat) : (dbUpdateJobStatus st jid s e n).videos = st.videos := rfl

@[simp] theorem dbUpdateJobStatus_niches (st : DBState) (jid : String) (s : JobStatus)
    (e : Option String) (n : Nat) : (dbUpdateJobStatus st jid s e n).niches = st.niches := rfl

@[simp] theorem dbSaveTrendingTopics_videos (st : DBState) (t : List TrendingTopic) :
    (dbSaveTrendingTopics st t).videos = st.videos := rfl

@[simp] theorem dbSaveTrendingTopics_jobs (st : DBState) (t : List TrendingTopic) :
    (dbSaveTrendingTopics st t).jobs = st.jobs := rfl

@[simp] theorem dbSaveTrendingTopics_niches (st : DBState) (t : List TrendingTopic) :
    (dbSaveTrendingTopics st t).niches = st.niches := rfl

@[simp] theorem saveVideoMetadata_jobs (st : DBState) (v : VideoMetadata) :
    (saveVideoMetadata st v).jobs = st.jobs := by
  unfold saveVideoMetadata; split <;> rfl

@[simp] theorem saveVideoMetadata_niches (st : DBState) (v : VideoMetadata) :
    (saveVideoMetadata st v).niches = st.niches := by
  unfold saveVideoMetadata; split <;> rfl

@[simp] theorem dbUpdateVideoStatus_jobs (st : DBState) (vid : String) (s : VideoStatus) :
    (dbUpdateVideoStatus st vid s).jobs = st.jobs := rfl

@[simp] theorem dbUpdateVideoStatus_niches (st : DBState) (vid : String) (s : VideoStatus) :
    (dbUpdateVideoStatus st vid s).niches = st.niches := rfl

theorem updateJobStatusRecord_id (j : WorkflowJob) (s : JobStatus)
    (e : Option String) (n : Nat) : (updateJobStatusRecord j s e n).id = j.id := by
  unfold updateJobStatusRecord
  cases e <;> dsimp only <;> split <;> split <;> first | rfl | (split <;> rfl)

/-- Lookup by id after `createJob` when the id was fresh. -/
theorem getJob_createJob (st : DBState) (j : WorkflowJob)
    (hfresh : getJob st j.id = none) : getJob (createJob st j) j.id = some j := by
  unfold getJob createJob at *
  simp [List.find?_append, hfresh]

/-- Lookup by id after `updateJobStatus` at that same id. -/
theorem getJob_dbUpdateJobStatus (st : DBState) (jid : String) (s : JobStatus)
    (e : Option String) (n : Nat) :
    getJob (dbUpdateJobStatus st jid s e n) jid
      = (getJob st jid).map (fun j => updateJobStatusRecord j s e n) := by
  unfold getJob dbUpdateJobStatus
  exact find?_update st.jobs (fun j => j.id == jid) _
    (fun a ha => by
      simpa [updateJobStatusRecord_id] using ha)

/-- `getJob` only looks at the `jobs` collection. -/
theorem getJob_congr {st st' : DBState} (h : st'.jobs = st.jobs) (jid : String) :
    getJob st' jid = getJob st jid := by
  unfold getJob; rw [h]

/-- `getVideoMetadata` only looks at the `videos` collection. -/
theorem getVideoMetadata_congr {st st' : DBState} (h : st'.videos = st.videos) (vid : String) :
    getVideoMetadata st' vid = getVideoMetadata st vid := by
  unfold getVideoMetadata; rw [h]

/-- Lookup after a Firestore `set` (upsert) at the written id. -/
theorem getVideoMetadata_save (st : DBState) (w : VideoMetadata) (vid : String)
    (hid : w.id = vid) : getVideoMetadata (saveVideoMetadata st w) vid = some w := by
  unfold getVideoMetadata saveVideoMetadata
  subst hid
  by_cases hany : st.videos.any (fun x => x.id == w.id) = true
  · simp only [hany, if_true]
    have hsome : (st.videos.find? (fun v => v.id == w.id)).isSome := by
      rw [List.find?_isSome]
      rcases List.any_eq_true.mp hany with ⟨x, hx, hpx⟩
      exact ⟨x, hx, hpx⟩
    rw [find?_update st.videos (fun v => v.id == w.id) (fun _ => w) (fun a _ => by simp)]
    rcases Option.isSome_iff_exists.mp hsome with ⟨v, hv⟩
    rw [hv]; rfl
  · simp only [hany, if_false]
    have hnone : st.videos.find? (fun v => v.id == w.id) = none := by
      rw [List.find?_eq_none]
      intro x hx hpx
      exact hany (List.any_eq_true.mpr ⟨x, hx, hpx⟩)
    simp [List.find?_append, hnone]

/-- Membership after a Firestore `set`: every stored video was already
there or is the written one. -/
theorem mem_saveVideoMetadata {st : DBState} {w v : VideoMetadata}
    (h : w ∈ (saveVideoMetadata st v).videos) : w ∈ st.videos ∨ w = v := by
  unfold saveVideoMetadata at h
  by_cases hany : st.videos.any (fun x => x.id == v.id) = true
  · simp only [hany, if_true] at h
    rcases List.mem_map.mp h with ⟨a, ha, hw⟩
    by_cases hp : (a.id == v.id) = true
    · right; rw [← hw]; simp [hp]
    · left; rw [← hw]; simp only [Bool.not_eq_true] at hp; simpa [hp] using ha
  · simp only [hany, if_false] at h
    rcases List.mem_append.mp h with h' | h'
    · exact Or.inl h'
    · exact Or.inr (by simpa using h')

/-- Lookup after `updateVideoStatus` at the written id. -/
theorem getVideoMetadata_dbUpdateVideoStatus (st : DBState) (vid : String) (s : VideoStatus) :
    getVideoMetadata (dbUpdateVideoStatus st vid s) vid
      = (getVideoMetadata st vid).map (fun v => { v with status := s }) := by
  unfold getVideoMetadata dbUpdateVideoStatus
  exact find?_update st.videos (fun v => v.id == vid) _ (fun a ha => by simpa using ha)

/-! ## Per-platform fan-out lemmas -/

theorem id_of_getVideoMetadata {st : DBState} {vid : String} {v : VideoMetadata}
    (h : getVideoMetadata st vid = some v) : v.id = vid := by
  have := List.find?_some h
  simpa using this

theorem mem_of_getVideoMetadata {st : DBState} {vid : String} {v : VideoMetadata}
    (h : getVideoMetadata st vid = some v) : v ∈ st.videos :=
  List.mem_of_find?_eq_some h

@[simp] theorem postToYouTube_jobs (env : Env) (vid : String) (st : DBState) :
    (postToYouTube env vid st).jobs = st.jobs := by
  unfold postToYouTube; split
  · rfl
  · split <;> simp

@[simp] theorem postToInstagram_jobs (env : Env) (vid : String) (st : DBState) :
    (postToInstagram env vid st).jobs = st.jobs := by
  unfold postToInstagram; split
  · rfl
  · split <;> simp

@[simp] theorem postToTikTok_jobs (env : Env) (vid : String) (st : DBState) :
    (postToTikTok env vid st).jobs = st.jobs := by
  unfold postToTikTok; split
  · rfl
  · split <;> simp

@[simp] theorem postToAllPlatforms_jobs (env : Env) (vid d : String) (h : List String)
    (niche : ContentNiche) (st : DBState) :
    (postToAllPlatforms env vid d h niche st).jobs = st.jobs := by
  unfold postToAllPlatforms
  split <;> split <;> split <;> simp

theorem postToYouTube_err {env : Env} (vid : String) (st : DBState) {e : String}
    (h : env.youtubePost = Except.error e) : postToYouTube env vid st = st := by
  unfold postToYouTube; rw [h]

theorem postToInstagram_err {env : Env} (vid : String) (st : DBState) {e : String}
    (h : env.instagramPost = Except.error e) : postToInstagram env vid st = st := by
  unfold postToInstagram; split
  · rfl
  · rw [h]

theorem postToTikTok_err {env : Env} (vid : String) (st : DBState) {e : String}
    (h : env.tiktokPost = Except.error e) : postToTikTok env vid st = st := by
  unfold postToTikTok; rw [h]

theorem postToYouTube_lookup {env : Env} {vid : String} {st : DBState} {v : VideoMetadata}
    {y : String} (hp : env.youtubePost = Except.ok y)
    (hv : getVideoMetadata st vid = some v) :
    getVideoMetadata (postToYouTube env vid st) vid
      = some { v with platforms := v.platforms ++ [mkPostedEntry Platform.youtube y env.now] } := by
  unfold postToYouTube
  rw [hp, hv]
  exact getVideoMetadata_save st _ vid (show v.id = vid from id_of_getVideoMetadata hv)

theorem postToInstagram_lookup {env : Env} {vid : String} {st : DBState} {v : VideoMetadata}
    {i : String} (hp : env.instagramPost = Except.ok i)
    (hv : getVideoMetadata st vid = some v) :
    getVideoMetadata (postToInstagram env vid st) vid
      = some { v with platforms := v.platforms ++ [mkPostedEntry Platform.instagram i env.now] } := by
  unfold postToInstagram
  rw [hv, hp]
  exact getVideoMetadata_save st _ vid (show v.id = vid from id_of_getVideoMetadata hv)

theorem postToTikTok_lookup {env : Env} {vid : String} {st : DBState} {v : VideoMetadata}
    {t : String} (hp : env.tiktokPost = Except.ok t)
    (hv : getVideoMetadata st vid = some v) :
    getVideoMetadata (postToTikTok env vid st) vid
      = some { v with platforms := v.platforms ++ [mkPostedEntry Platform.tiktok t env.now] } := by
  unfold postToTikTok
  rw [hp, hv]
  exact getVideoMetadata_save st _ vid (show v.id = vid from id_of_getVideoMetadata hv)

/-- A `PlatformPost` is a successful fan-out entry: status `posted`, a
present external post id and a present timestamp. -/
def successfulEntry (p : PlatformPost) : Prop :=
  p.status = PostStatus.posted ∧ p.postId.isSome = true ∧ p.postedAt.isSome = true

theorem successfulEntry_mkPostedEntry (pl : Platform) (pid : String) (n : Nat) :
    successfulEntry (mkPostedEntry pl pid n) := by
  refine ⟨rfl, rfl, rfl⟩

/-- `appendsOnlyPosted st st'`: every platform entry stored in `st'` was
already stored in `st` or is a successful fan-out entry. -/
def appendsOnlyPosted (st st' : DBState) : Prop :=
  ∀ v' ∈ st'.videos, ∀ p ∈ v'.platforms,
    (∃ v ∈ st.videos, p ∈ v.platforms) ∨ successfulEntry p

theorem appendsOnlyPosted_refl (st : DBState) : appendsOnlyPosted st st :=
  fun v' hv' _ hp => Or.inl ⟨v', hv', hp⟩

theorem appendsOnlyPosted_trans {st st' st'' : DBState}
    (h1 : appendsOnlyPosted st st') (h2 : appendsOnlyPosted st' st'') :
    appendsOnlyPosted st st'' := by
  intro v'' hv'' p hp
  rcases h2 v'' hv'' p hp with ⟨v', hv', hp'⟩ | hgood
  · exact h1 v' hv' p hp'
  · exact Or.inr hgood

/-- Saving a video that only appends a successful entry onto an already
stored record preserves the fan-out append discipline. -/
theorem appendsOnlyPosted_save {st : DBState} {video : VideoMetadata}
    (hmem : video ∈ st.videos) (entry : PlatformPost) (hgood : successfulEntry entry) :
    appendsOnlyPosted st
      (saveVideoMetadata st { video with platforms := video.platforms ++ [entry] }) := by
  intro v' hv' p hp
  rcases mem_saveVideoMetadata hv' with h' | h'
  · exact Or.inl ⟨v', h', hp⟩
  · subst h'
    simp only [List.mem_append, List.mem_singleton] at hp
    rcases hp with hp | hp
    · exact Or.inl ⟨video, hmem, hp⟩
    · subst hp; exact Or.inr hgood

theorem postToYouTube_appendsOnlyPosted (env : Env) (vid : String) (st : DBState) :
    appendsOnlyPosted st (postToYouTube env vid st) := by
  unfold postToYouTube
  split
  · exact appendsOnlyPosted_refl st
  · split
    · exact appendsOnlyPosted_refl st
    · rename_i video hv
      exact appendsOnlyPosted_save (mem_of_getVideoMetadata hv) _
        (successfulEntry_mkPostedEntry _ _ _)

theorem postToInstagram_appendsOnlyPosted (env : Env) (vid : String) (st : DBState) :
    appendsOnlyPosted st (postToInstagram env vid st) := by
  unfold postToInstagram
  split
  · exact appendsOnlyPosted_refl st
  · rename_i video hv
    split
    · exact appendsOnlyPosted_refl st
    · exact appendsOnlyPosted_save (mem_of_getVideoMetadata hv) _
        (successfulEntry_mkPostedEntry _ _ _)

theorem postToTikTok_appendsOnlyPosted (env : Env) (vid : String) (st : DBState) :
    appendsOnlyPosted st (postToTikTok env vid st) := by
  unfold postToTikTok
  split
  · exact appendsOnlyPosted_refl st
  · split
    · exact appendsOnlyPosted_refl st
    · rename_i video hv
      exact appendsOnlyPosted_save (mem_of_getVideoMetadata hv) _
        (successfulEntry_mkPostedEntry _ _ _)

/-- A conditionally applied store transformer that only appends successful
entries preserves the fan-out append discipline. -/
theorem appendsOnlyPosted_step (c : Bool) (f : DBState → DBState)
    (hf : ∀ s, appendsOnlyPosted s (f s)) (s : DBState) :
    appendsOnlyPosted s (if c = true then f s else s) := by
  cases c
  · simpa using appendsOnlyPosted_refl s
  · simpa using hf s

theorem postToAllPlatforms_appendsOnlyPosted (env : Env) (vid d : String) (h : List String)
    (niche : ContentNiche) (st : DBState) :
    appendsOnlyPosted st (postToAllPlatforms env vid d h niche st) := by
  unfold postToAllPlatforms
  exact appendsOnlyPosted_trans (appendsOnlyPosted_trans
    (appendsOnlyPosted_step _ _ (postToYouTube_appendsOnlyPosted env vid) st)
    (appendsOnlyPosted_step _ _ (postToInstagram_appendsOnlyPosted env vid) _))
    (appendsOnlyPosted_step _ _ (postToTikTok_appendsOnlyPosted env vid) _)

/-! ## Run-body reduction lemmas -/

@[simp] theorem liftE_ok {α : Type} (st : DBState) (a : α) :
    liftE st (Except.ok a) = (Except.ok a : Except (String × DBState) α) := rfl

@[simp] theorem liftE_err {α : Type} (st : DBState) (e : String) :
    liftE st (Except.error e) = (Except.error (e, st) : Except (String × DBState) α) := rfl

theorem updateJobStatusRecord_status (j : WorkflowJob) (s : JobStatus)
    (e : Option String) (n : Nat) : (updateJobStatusRecord j s e n).status = s := by
  unfold updateJobStatusRecord
  cases e <;> dsimp only <;> split <;> split <;> first | rfl | (split <;> rfl)

theorem updateJobStatusRecord_startedAt_running (j : WorkflowJob)
    (e : Option String) (n : Nat) :
    (updateJobStatusRecord j JobStatus.running e n).startedAt = some n := by
  unfold updateJobStatusRecord
  cases e with
  | none => simp
  | some a =>
    simp only []
    split <;> simp

theorem updateJobStatusRecord_completed (j : WorkflowJob) (n : Nat) :
    (updateJobStatusRecord j JobStatus.completed none n).status = JobStatus.completed ∧
    (updateJobStatusRecord j JobStatus.completed none n).completedAt = some n ∧
    (updateJobStatusRecord j JobStatus.completed none n).startedAt = j.startedAt := by
  unfold updateJobStatusRecord
  simp

theorem updateJobStatusRecord_failed (j : WorkflowJob) (e : String) (he : e ≠ "") (n : Nat) :
    (updateJobStatusRecord j JobStatus.failed (some e) n).status = JobStatus.failed ∧
    (updateJobStatusRecord j JobStatus.failed (some e) n).error = some e ∧
    (updateJobStatusRecord j JobStatus.failed (some e) n).completedAt = some n ∧
    (updateJobStatusRecord j JobStatus.failed (some e) n).startedAt = j.startedAt := by
  unfold updateJobStatusRecord
  simp [he]

/-- Reduction of `runBody` when every step up to the fan-out succeeds. -/
theorem runBody_ok {env : Env} (niche : ContentNiche) (jobId : String) (st : DBState)
    {pr : PromptResponse} {vg : VideoGenResponse} {pu sp : String}
    (hsv : env.saveTopics = Except.ok ())
    (hpr : env.promptResult = Except.ok pr) (hvg : env.videoGen = Except.ok vg)
    (hdl : env.download = Except.ok ()) (hup : env.upload = Except.ok (pu, sp)) :
    ∃ stT : DBState, stT.videos = st.videos ∧ stT.jobs = st.jobs ∧ stT.niches = st.niches ∧
      runBody env niche jobId st = Except.ok (env.freshVideoId,
        dbUpdateVideoStatus
          (dbUpdateJobStatus
            (postToAllPlatforms env env.freshVideoId pr.description pr.suggestedHashtags niche
              (saveVideoMetadata stT (mkRunVideoMetadata env niche pr vg pu sp)))
            jobId JobStatus.completed none env.now)
          env.freshVideoId VideoStatus.posted) := by
  by_cases hT : env.topics.length > 0
  · refine ⟨dbSaveTrendingTopics st env.topics, by simp, by simp, by simp, ?_⟩
    unfold runBody
    rw [if_pos hT, hsv, hpr, hvg, hdl, hup]
    rfl
  · refine ⟨st, rfl, rfl, rfl, ?_⟩
    unfold runBody
    rw [if_neg hT, hpr, hvg, hdl, hup]
    rfl

/-- Step 1 aborts the body when the topics list is non-empty and the
Firestore batch commit of `saveTrendingTopics` throws. -/
theorem runBody_saveTopicsErr {env : Env} (niche : ContentNiche) (jobId : String)
    (st : DBState) {e : String} (hT : env.topics.length > 0)
    (hsv : env.saveTopics = Except.error e) :
    runBody env niche jobId st = Except.error (e, st) := by
  unfold runBody
  rw [if_pos hT, hsv]

/-- Step 3 aborts the body when video synthesis throws. -/
theorem runBody_videoGenErr {env : Env} (niche : ContentNiche) (jobId : String)
    (st : DBState) {pr : PromptResponse} {e : String}
    (hsv : env.saveTopics = Except.ok ())
    (hpr : env.promptResult = Except.ok pr) (hvg : env.videoGen = Except.error e) :
    ∃ stT : DBState, stT.videos = st.videos ∧ stT.jobs = st.jobs ∧ stT.niches = st.niches ∧
      runBody env niche jobId st = Except.error (e, stT) := by
  by_cases hT : env.topics.length > 0
  · refine ⟨dbSaveTrendingTopics st env.topics, by simp, by simp, by simp, ?_⟩
    unfold runBody
    rw [if_pos hT, hsv, hpr, hvg]
    rfl
  · refine ⟨st, rfl, rfl, rfl, ?_⟩
    unfold runBody
    rw [if_neg hT, hpr, hvg]
    rfl

/-- Lookup by id after `createJob` when the id was fresh. -/
theorem getJob_createJob_at {st : DBState} {j : WorkflowJob} {jid : String}
    (hid : j.id = jid) (hfresh : getJob st jid = none) :
    getJob (createJob st j) jid = some j := by
  unfold getJob createJob at *
  simp [List.find?_append, hfresh, hid]

/-- The job record right after the queued→running transition at the top of
`generateAndPostVideo`, when the store-assigned id is fresh. -/
theorem getJob_afterStart (env : Env) (niche : ContentNiche) (st : DBState)
    (hfj : getJob st env.freshJobId = none) :
    getJob (dbUpdateJobStatus (createJob st (initialJob env niche)) env.freshJobId
        JobStatus.running none env.now) env.freshJobId
      = some (updateJobStatusRecord (initialJob env niche) JobStatus.running none env.now) := by
  rw [getJob_dbUpdateJobStatus,
    getJob_createJob_at (show (initialJob env niche).id = env.freshJobId from rfl) hfj]
  rfl

/-! ## Concrete fixtures used by witnesses and counterexamples -/

/-- A niche with the given display name and no platform credentials. -/
def nicheNamed (name : String) : ContentNiche :=
  { id := "niche-1", name := name, description := "", keywords := [],
    promptTemplate := "", targetAudience := "",
    postingSchedule := { timesPerDay := 1, preferredTimes := [], timezone := "UTC" },
    socialAccounts := { youtube := none, instagram := none, tiktok := none } }

/-- All three platform credential bundles present, TikTok with a non-empty
access token. -/
def fullAccounts : SocialAccountConfig :=
  { youtube := some { channelId := "chan", refreshToken := "refresh" },
    instagram := some { accountId := "acct", accessToken := "itoken" },
    tiktok := some { username := "user", accessToken := some "ttoken" } }

def nicheFull : ContentNiche :=
  { nicheNamed "Daily Motivation Boost" with socialAccounts := fullAccounts }

def promptOk : PromptResponse :=
  { prompt := "a cinematic shot", description := "a description",
    suggestedHashtags := ["fyp"], estimatedEngagement := Engagement.medium }

/-- An environment in which every external call succeeds. -/
def baseEnv : Env :=
  { now := 7, freshJobId := "job-1", freshVideoId := "vid-1", topics := [],
    saveTopics := Except.ok (), promptResult := Except.ok promptOk,
    videoGen := Except.ok { videoUrl := "url-v", duration := 8 },
    download := Except.ok (), upload := Except.ok ("url-pub", "path-1"),
    youtubePost := Except.ok "yt-1", instagramPost := Except.ok "ig-1",
    tiktokPost := Except.ok "tt-1" }

/-! ## Claim C5: style inference -/

/-- The first bucket condition of `getStyleFromNiche`. -/
def educationalCond (name : String) : Bool :=
  strIncludes (strLower name) "education" || strIncludes (strLower name) "learn"
    || strIncludes (strLower name) "tutorial"

/-- The second bucket condition of `getStyleFromNiche`. -/
def motivationalCond (name : String) : Bool :=
  strIncludes (strLower name) "motivation" || strIncludes (strLower name) "inspire"
    || strIncludes (strLower name) "success"

/-- The third bucket condition of `getStyleFromNiche`. -/
def newsCond (name : String) : Bool :=
  strIncludes (strLower name) "news" || strIncludes (strLower name) "current"
    || strIncludes (strLower name) "trending"

/-- Claim C5: style inference is a deterministic pure function of the
niche's display name; the lower-cased name is checked against the four
buckets in the fixed order educational, motivational, news, entertainment
with the first match winning; and the three named example names map to
motivational, educational and entertainment respectively. -/
theorem C5_style_inference :
    (∀ n1 n2 : ContentNiche, n1.name = n2.name →
        getStyleFromNiche n1 = getStyleFromNiche n2) ∧
    (∀ niche : ContentNiche,
      (educationalCond niche.name = true →
        getStyleFromNiche niche = Style.educational) ∧
      (educationalCond niche.name = false → motivationalCond niche.name = true →
        getStyleFromNiche niche = Style.motivational) ∧
      (educationalCond niche.name = false → motivationalCond niche.name = false →
        newsCond niche.name = true → getStyleFromNiche niche = Style.news) ∧
      (educationalCond niche.name = false → motivationalCond niche.name = false →
        newsCond niche.name = false → getStyleFromNiche niche = Style.entertainment)) ∧
    getStyleFromNiche (nicheNamed "Daily Motivation Boost") = Style.motivational ∧
    getStyleFromNiche (nicheNamed "Tech Tutorials") = Style.educational ∧
    getStyleFromNiche (nicheNamed "Random Fun") = Style.entertainment := by
  refine ⟨?_, ?_, by decide, by decide, by decide⟩
  · intro n1 n2 h
    unfold getStyleFromNiche
    rw [h]
  · intro niche
    unfold educationalCond motivationalCond newsCond getStyleFromNiche
    refine ⟨?_, ?_, ?_, ?_⟩ <;> intro h <;> simp_all

/-- Witness for C5: instantiates purity at two niches sharing the name
`"Trending Tutorials"` and the first-match priority (the name matches both
the educational and the news bucket, and resolves to educational). -/
theorem C5_style_inference_witness :
    getStyleFromNiche { nicheNamed "Trending Tutorials" with id := "other" }
        = getStyleFromNiche (nicheNamed "Trending Tutorials") ∧
    getStyleFromNiche (nicheNamed "Trending Tutorials") = Style.educational :=
  ⟨C5_style_inference.1 _ _ rfl,
    (C5_style_inference.2.1 (nicheNamed "Trending Tutorials")).1 (by decide)⟩

/-! ## Claim C7: engagement rate -/

/-- Claim C7: for non-negative integer counts the computed engagement rate
is `(likes + comments + shares) / views * 100` when `views > 0`, exactly
`0` when `views = 0`, and `views=100, likes=10, comments=5, shares=5`
yields exactly `20`. -/
theorem C7_engagement_rate :
    (∀ v l c s : ℕ, v = 0 →
        calculateEngagementRate (v : ℚ) (l : ℚ) (c : ℚ) (s : ℚ) = 0) ∧
    (∀ v l c s : ℕ, 0 < v →
        calculateEngagementRate (v : ℚ) (l : ℚ) (c : ℚ) (s : ℚ)
          = ((l : ℚ) + (c : ℚ) + (s : ℚ)) / (v : ℚ) * 100) ∧
    calculateEngagementRate 100 10 5 5 = 20 := by
  refine ⟨?_, ?_, by norm_num [calculateEngagementRate]⟩
  · intro v l c s hv
    subst hv
    simp [calculateEngagementRate]
  · intro v l c s hv
    have hne : (v : ℚ) ≠ 0 := Nat.cast_ne_zero.mpr hv.ne'
    simp [calculateEngagementRate, hne]

/-- Witness for C7 at `views = 0` and at the named concrete metrics. -/
theorem C7_engagement_rate_witness :
    calculateEngagementRate ((0 : ℕ) : ℚ) ((3 : ℕ) : ℚ) ((4 : ℕ) : ℚ) ((5 : ℕ) : ℚ) = 0 ∧
    (0 : ℕ) < 100 ∧
    calculateEngagementRate ((100 : ℕ) : ℚ) ((10 : ℕ) : ℚ) ((5 : ℕ) : ℚ) ((5 : ℕ) : ℚ)
      = (((10 : ℕ) : ℚ) + ((5 : ℕ) : ℚ) + ((5 : ℕ) : ℚ)) / ((100 : ℕ) : ℚ) * 100 :=
  ⟨C7_engagement_rate.1 0 3 4 5 rfl, by decide,
    C7_engagement_rate.2.1 100 10 5 5 (by decide)⟩

/-! ## Claim C8: job timestamps -/

/-- A freshly created `generate` job in `queued` status. -/
def jobQ : WorkflowJob :=
  { id := "j1", jobType := JobType.generate, status := JobStatus.queued, niche := "n1",
    videoId := none, createdAt := 0, startedAt := none, completedAt := none,
    error := none, retryCount := 0 }

/-- Counterexample to claim C8: a second `running` update overwrites an
already-set `startedAt` (the `!updates.startedAt` guard in the source
inspects the freshly built `updates` object, so it never fires), and a
`failed` update after a `completed` one — reachable in
`generateAndPostVideo` when `updateVideoStatus` throws after the job was
marked completed — overwrites an already-set `completedAt`. -/
theorem C8_timestamps_counterexample :
    (updateJobStatusRecord jobQ JobStatus.running none 1).startedAt = some 1 ∧
    (updateJobStatusRecord (updateJobStatusRecord jobQ JobStatus.running none 1)
        JobStatus.running none 2).startedAt = some 2 ∧
    (updateJobStatusRecord (updateJobStatusRecord jobQ JobStatus.running none 1)
        JobStatus.completed none 3).completedAt = some 3 ∧
    (updateJobStatusRecord (updateJobStatusRecord (updateJobStatusRecord jobQ
          JobStatus.running none 1) JobStatus.completed none 3)
        JobStatus.failed (some "late failure") 4).completedAt = some 4 := by
  decide

/-- Claim C8 as amended: `updateJobStatus` writes `startedAt := now` on
EVERY update to `running` and `completedAt := now` on EVERY update to a
terminal status, leaving the fields unchanged otherwise; in the single
queued→running→terminal sequence of a normal run each field is therefore
written exactly once, but repeated `running` or terminal updates overwrite
the earlier timestamps. -/
theorem C8_timestamps_amended :
    ∀ (j : WorkflowJob) (s : JobStatus) (e : Option String) (n : Nat),
      ((updateJobStatusRecord j s e n).startedAt
          = if s = JobStatus.running then some n else j.startedAt) ∧
      ((updateJobStatusRecord j s e n).completedAt
          = if s = JobStatus.completed ∨ s = JobStatus.failed then some n
            else j.completedAt) := by
  intro j s e n
  unfold updateJobStatusRecord
  cases e with
  | none => cases s <;> simp
  | some a =>
    by_cases ha : a = "" <;> cases s <;> simp [ha]

/-! ## Claim C9: polling ceilings -/

theorem falPollAux_le (s u : Nat → String) :
    ∀ (fuel attempt : Nat), (falPollAux s u attempt fuel).2 ≤ fuel := by
  intro fuel
  induction fuel with
  | zero => intro attempt; simp [falPollAux]
  | succ f ih =>
    intro attempt
    unfold falPollAux
    dsimp only
    split
    · simp
    · split
      · simp
      · simpa using Nat.succ_le_succ (ih (attempt + 1))

theorem replicatePollAux_le (s u : Nat → String) :
    ∀ (fuel attempt : Nat), (replicatePollAux s u attempt fuel).2 ≤ fuel := by
  intro fuel
  induction fuel with
  | zero => intro attempt; simp [replicatePollAux]
  | succ f ih =>
    intro attempt
    unfold replicatePollAux
    dsimp only
    split
    · simp
    · split
      · simp
      · simpa using Nat.succ_le_succ (ih (attempt + 1))

theorem falPollAux_timeout (s u : Nat → String) :
    ∀ (fuel attempt : Nat),
      (∀ i, attempt ≤ i → i < attempt + fuel →
        s i ≠ "COMPLETED" ∧ s i ≠ "FAILED") →
      (falPollAux s u attempt fuel).1 = Except.error "Video generation timed out" := by
  intro fuel
  induction fuel with
  | zero => intro attempt _; rfl
  | succ f ih =>
    intro attempt h
    have h0 := h attempt le_rfl (by omega)
    unfold falPollAux
    dsimp only
    rw [if_neg (by simpa using h0.1), if_neg (by simpa using h0.2)]
    exact ih (attempt + 1) (fun i h1 h2 => h i (by omega) (by omega))

theorem replicatePollAux_timeout (s u : Nat → String) :
    ∀ (fuel attempt : Nat),
      (∀ i, attempt ≤ i → i < attempt + fuel →
        s i ≠ "succeeded" ∧ s i ≠ "failed" ∧ s i ≠ "canceled") →
      (replicatePollAux s u attempt fuel).1
        = Except.error "Video generation timed out" := by
  intro fuel
  induction fuel with
  | zero => intro attempt _; rfl
  | succ f ih =>
    intro attempt h
    have h0 := h attempt le_rfl (by omega)
    unfold replicatePollAux
    dsimp only
    rw [if_neg (by simpa using h0.1), if_neg (by simp [h0.2.1, h0.2.2])]
    exact ih (attempt + 1) (fun i h1 h2 => h i (by omega) (by omega))

theorem falPollAux_noSuccess (s u : Nat → String) :
    ∀ (fuel attempt : Nat),
      (∀ i, attempt ≤ i → i < attempt + fuel → s i ≠ "COMPLETED") →
      ∃ e, (falPollAux s u attempt fuel).1 = Except.error e := by
  intro fuel
  induction fuel with
  | zero => intro attempt _; exact ⟨"Video generation timed out", rfl⟩
  | succ f ih =>
    intro attempt h
    have h0 := h attempt le_rfl (by omega)
    unfold falPollAux
    dsimp only
    rw [if_neg (by simpa using h0)]
    by_cases hf : s attempt = "FAILED"
    · exact ⟨"Video generation failed", by rw [if_pos (by simpa using hf)]⟩
    · rw [if_neg (by simpa using hf)]
      exact ih (attempt + 1) (fun i h1 h2 => h i (by omega) (by omega))

theorem replicatePollAux_noSuccess (s u : Nat → String) :
    ∀ (fuel attempt : Nat),
      (∀ i, attempt ≤ i → i < attempt + fuel → s i ≠ "succeeded") →
      ∃ e, (replicatePollAux s u attempt fuel).1 = Except.error e := by
  intro fuel
  induction fuel with
  | zero => intro attempt _; exact ⟨"Video generation timed out", rfl⟩
  | succ f ih =>
    intro attempt h
    have h0 := h attempt le_rfl (by omega)
    unfold replicatePollAux
    dsimp only
    rw [if_neg (by simpa using h0)]
    by_cases hf : (s attempt == "failed" || s attempt == "canceled") = true
    · exact ⟨"Video generation " ++ s attempt, by rw [if_pos hf]⟩
    · rw [if_neg hf]
      exact ih (attempt + 1) (fun i h1 h2 => h i (by omega) (by omega))

/-- Claim C9: both long-poll loops of the video-generation adapter perform
at most 60 polls; when no terminal success status appears within the
ceiling the loop terminates with an error instead of polling indefinitely,
and when no terminal status appears at all the error is the descriptive
timeout message. -/
theorem C9_poll_ceiling :
    ∀ statuses urls : Nat → String,
      ((falPollLoop statuses urls).2 ≤ 60 ∧
        ((∀ i, i < 60 → statuses i ≠ "COMPLETED") →
          ∃ e, (falPollLoop statuses urls).1 = Except.error e) ∧
        ((∀ i, i < 60 → statuses i ≠ "COMPLETED" ∧ statuses i ≠ "FAILED") →
          (falPollLoop statuses urls).1 = Except.error "Video generation timed out")) ∧
      ((replicatePollLoop statuses urls).2 ≤ 60 ∧
        ((∀ i, i < 60 → statuses i ≠ "succeeded") →
          ∃ e, (replicatePollLoop statuses urls).1 = Except.error e) ∧
        ((∀ i, i < 60 →
            statuses i ≠ "succeeded" ∧ statuses i ≠ "failed" ∧ statuses i ≠ "canceled") →
          (replicatePollLoop statuses urls).1
            = Except.error "Video generation timed out")) := by
  intro statuses urls
  refine ⟨⟨falPollAux_le statuses urls 60 0, ?_, ?_⟩,
    ⟨replicatePollAux_le statuses urls 60 0, ?_, ?_⟩⟩
  · intro h
    exact falPollAux_noSuccess statuses urls 60 0 (fun i _ h2 => h i (by omega))
  · intro h
    exact falPollAux_timeout statuses urls 60 0 (fun i _ h2 => h i (by omega))
  · intro h
    exact replicatePollAux_noSuccess statuses urls 60 0 (fun i _ h2 => h i (by omega))
  · intro h
    exact replicatePollAux_timeout statuses urls 60 0 (fun i _ h2 => h i (by omega))

/-- Witness for C9 on the always-in-progress status stream. -/
theorem C9_poll_ceiling_witness :
    (falPollLoop (fun _ => "IN_PROGRESS") (fun _ => "u")).2 ≤ 60 ∧
    (falPollLoop (fun _ => "IN_PROGRESS") (fun _ => "u")).1
      = Except.error "Video generation timed out" ∧
    (replicatePollLoop (fun _ => "processing") (fun _ => "u")).2 ≤ 60 ∧
    (replicatePollLoop (fun _ => "processing") (fun _ => "u")).1
      = Except.error "Video generation timed out" :=
  ⟨(C9_poll_ceiling (fun _ => "IN_PROGRESS") (fun _ => "u")).1.1,
    (C9_poll_ceiling (fun _ => "IN_PROGRESS") (fun _ => "u")).1.2.2
      (fun i _ => by constructor <;> decide),
    (C9_poll_ceiling (fun _ => "processing") (fun _ => "u")).2.1,
    (C9_poll_ceiling (fun _ => "processing") (fun _ => "u")).2.2.2
      (fun i _ => by refine ⟨by decide, by decide, by decide⟩)⟩

/-! ## Claim C2: persistence of fetched topics -/

def topicAi : TrendingTopic :=
  { topic := "ai videos", score := 90, source := TopicSource.googleTrends,
    relatedKeywords := [], fetchedAt := 0 }

/-- Environment in which the Firestore batch commit of the fetched topics
throws while everything else succeeds. -/
def envSaveFail : Env :=
  { baseEnv with topics := [topicAi], saveTopics := Except.error "firestore unavailable" }

/-- Counterexample to claim C2: with a non-empty fetched-topics list and a
throwing `saveTrendingTopics`, the run IS aborted — `generateAndPostVideo`
rethrows the error and the job is marked `failed` — because the orchestrator
awaits `db.saveTrendingTopics` inside its single try block with no local
catch, and the database layer rethrows after logging. -/
theorem C2_topic_save_counterexample :
    (generateAndPostVideo envSaveFail nicheFull DBState.init).1
        = Except.error "firestore unavailable" ∧
    (getJob (generateAndPostVideo envSaveFail nicheFull DBState.init).2
        "job-1").map (fun j => j.status) = some JobStatus.failed :=
  ⟨rfl, rfl⟩

/-- Claim C2 as amended: when the trending-topic fetch returns a non-empty
list and persisting it throws, the error propagates — the job is marked
`failed` with that error message and `run` rethrows to its caller; the
topic save is fatal to the run, not best-effort. -/
theorem C2_topic_save_fatal :
    ∀ (env : Env) (niche : ContentNiche) (st : DBState) (e : String),
      env.topics.length > 0 → env.saveTopics = Except.error e → e ≠ "" →
      getJob st env.freshJobId = none →
      (generateAndPostVideo env niche st).1 = Except.error e ∧
      ∃ j, getJob (generateAndPostVideo env niche st).2 env.freshJobId = some j ∧
        j.status = JobStatus.failed ∧ j.error = some e := by
  intro env niche st e hT hsv he hfj
  unfold generateAndPostVideo
  dsimp only
  rw [runBody_saveTopicsErr niche env.freshJobId _ hT hsv]
  refine ⟨rfl, updateJobStatusRecord (updateJobStatusRecord (initialJob env niche)
      JobStatus.running none env.now) JobStatus.failed (some e) env.now, ?_,
    (updateJobStatusRecord_failed _ e he _).1, (updateJobStatusRecord_failed _ e he _).2.1⟩
  show getJob (dbUpdateJobStatus (dbUpdateJobStatus (createJob st (initialJob env niche))
      env.freshJobId JobStatus.running none env.now) env.freshJobId JobStatus.failed
      (some e) env.now) env.freshJobId = _
  rw [getJob_dbUpdateJobStatus, getJob_afterStart env niche st hfj]
  rfl

/-- Witness for C2's amended statement on the concrete failing store. -/
theorem C2_topic_save_fatal_witness :
    envSaveFail.topics.length > 0 ∧
    ((generateAndPostVideo envSaveFail nicheFull DBState.init).1
        = Except.error "firestore unavailable" ∧
      ∃ j, getJob (generateAndPostVideo envSaveFail nicheFull DBState.init).2
          envSaveFail.freshJobId = some j ∧
        j.status = JobStatus.failed ∧ j.error = some "firestore unavailable") :=
  ⟨by decide, C2_topic_save_fatal envSaveFail nicheFull DBState.init
    "firestore unavailable" (by decide) rfl (by decide) rfl⟩

/-! ## Claim C4: fatal video-generation failure -/

/-- Claim C4: if the video-generation step throws, the job transitions
queued → running → failed with the error message recorded, no video record
is persisted for this run, and the error propagates to the caller of
`run`. -/
theorem C4_videoGen_failure :
    ∀ (env : Env) (niche : ContentNiche) (st : DBState) (pr : PromptResponse) (e : String),
      env.saveTopics = Except.ok () → env.promptResult = Except.ok pr →
      env.videoGen = Except.error e → e ≠ "" →
      getJob st env.freshJobId = none →
      (getJob (createJob st (initialJob env niche)) env.freshJobId).map (fun j => j.status)
          = some JobStatus.queued ∧
      (getJob (dbUpdateJobStatus (createJob st (initialJob env niche)) env.freshJobId
            JobStatus.running none env.now) env.freshJobId).map (fun j => j.status)
          = some JobStatus.running ∧
      (∃ j, getJob (generateAndPostVideo env niche st).2 env.freshJobId = some j ∧
        j.status = JobStatus.failed ∧ j.error = some e ∧
        j.startedAt = some env.now ∧ j.completedAt = some env.now) ∧
      (generateAndPostVideo env niche st).2.videos = st.videos ∧
      (generateAndPostVideo env niche st).1 = Except.error e := by
  intro env niche st pr e hsv hpr hvg he hfj
  obtain ⟨stT, hv, hj, hn, heq⟩ := runBody_videoGenErr niche env.freshJobId
    (dbUpdateJobStatus (createJob st (initialJob env niche)) env.freshJobId
      JobStatus.running none env.now) hsv hpr hvg
  have hstart := getJob_afterStart env niche st hfj
  refine ⟨?_, ?_, ?_, ?_, ?_⟩
  · rw [getJob_createJob_at (show (initialJob env niche).id = env.freshJobId from rfl) hfj]
    rfl
  · rw [hstart]
    simp [updateJobStatusRecord_status]
  · refine ⟨updateJobStatusRecord (updateJobStatusRecord (initialJob env niche)
        JobStatus.running none env.now) JobStatus.failed (some e) env.now, ?_,
      (updateJobStatusRecord_failed _ e he _).1,
      (updateJobStatusRecord_failed _ e he _).2.1, ?_, ?_⟩
    · show getJob (generateAndPostVideo env niche st).2 env.freshJobId = _
      unfold generateAndPostVideo
      dsimp only
      rw [heq]
      show getJob (dbUpdateJobStatus stT env.freshJobId JobStatus.failed (some e) env.now)
          env.freshJobId = _
      rw [getJob_dbUpdateJobStatus, getJob_congr hj, hstart]
      rfl
    · rw [(updateJobStatusRecord_failed _ e he _).2.2.2,
        updateJobStatusRecord_startedAt_running]
    · exact (updateJobStatusRecord_failed _ e he _).2.2.1
  · unfold generateAndPostVideo
    dsimp only
    rw [heq]
    show (dbUpdateJobStatus stT env.freshJobId JobStatus.failed (some e) env.now).videos = _
    rw [dbUpdateJobStatus_videos, hv]
    simp
  · unfold generateAndPostVideo
    dsimp only
    rw [heq]

/-- Witness for C4 on a concretely failing synthesis call. -/
theorem C4_videoGen_failure_witness :
    ((generateAndPostVideo { baseEnv with videoGen := Except.error "synthesis exploded" }
        nicheFull DBState.init).1 = Except.error "synthesis exploded") ∧
    ((generateAndPostVideo { baseEnv with videoGen := Except.error "synthesis exploded" }
        nicheFull DBState.init).2.videos = DBState.init.videos) ∧
    (∃ j, getJob (generateAndPostVideo
          { baseEnv with videoGen := Except.error "synthesis exploded" }
          nicheFull DBState.init).2
          ({ baseEnv with videoGen := Except.error "synthesis exploded" } : Env).freshJobId
        = some j ∧
      j.status = JobStatus.failed ∧ j.error = some "synthesis exploded" ∧
      j.startedAt = some 7 ∧ j.completedAt = some 7) :=
  ⟨(C4_videoGen_failure _ nicheFull DBState.init promptOk "synthesis exploded"
      rfl rfl rfl (by decide) rfl).2.2.2.2,
    (C4_videoGen_failure _ nicheFull DBState.init promptOk "synthesis exploded"
      rfl rfl rfl (by decide) rfl).2.2.2.1,
    (C4_videoGen_failure _ nicheFull DBState.init promptOk "synthesis exploded"
      rfl rfl rfl (by decide) rfl).2.2.1⟩

/-! ## Claim C6: retry semantics -/

/-- A successful `runBody` always returns the freshly drawn `uuidv4()`
video id. -/
theorem runBody_ok_fst {env : Env} {niche : ContentNiche} {jobId : String}
    {st : DBState} {vid : String} {st' : DBState}
    (h : runBody env niche jobId st = Except.ok (vid, st')) : vid = env.freshVideoId := by
  unfold runBody at h
  dsimp only at h
  repeat' split at h
  all_goals simp_all

/-- A successful `generateAndPostVideo` always returns the freshly drawn
`uuidv4()` video id. -/
theorem generateAndPostVideo_ok_id {env : Env} {niche : ContentNiche} {st : DBState}
    {v : String} (h : (generateAndPostVideo env niche st).1 = Except.ok v) :
    v = env.freshVideoId := by
  unfold generateAndPostVideo at h
  dsimp only at h
  rcases hR : runBody env niche env.freshJobId
      (dbUpdateJobStatus (createJob st (initialJob env niche)) env.freshJobId
        JobStatus.running none env.now) with e | p
  · rw [hR] at h
    rcases e with ⟨msg, stE⟩
    simp at h
  · rw [hR] at h
    rcases p with ⟨vid, stO⟩
    simp only [Except.ok.injEq] at h
    rw [← h]
    exact runBody_ok_fst hR

/-- Claim C6: `retry` on a missing job or a job not in `failed` status
rejects without touching the store; on a `failed` job with a resolvable
niche it performs the full fresh run, and any video id a successful run
returns is the freshly generated one — so, the uuid being globally unique,
it differs from the failed run's video id. -/
theorem C6_retry :
    ∀ (env : Env) (st : DBState) (jobId : String),
      (getJob st jobId = none →
        retryFailedJob env jobId st
          = (Except.error "Job not found or not in failed status", st)) ∧
      (∀ job, getJob st jobId = some job → job.status ≠ JobStatus.failed →
        retryFailedJob env jobId st
          = (Except.error "Job not found or not in failed status", st)) ∧
      (∀ job niche, getJob st jobId = some job → job.status = JobStatus.failed →
        getContentNiche st job.niche = some niche →
        retryFailedJob env jobId st
          = ((generateAndPostVideo env niche st).1.map (fun _ => ()),
             (generateAndPostVideo env niche st).2)) ∧
      (∀ (job : WorkflowJob) (oldVid : String) (niche : ContentNiche) (v : String),
        job.videoId = some oldVid → env.freshVideoId ≠ oldVid →
        (generateAndPostVideo env niche st).1 = Except.ok v → v ≠ oldVid) := by
  intro env st jobId
  refine ⟨?_, ?_, ?_, ?_⟩
  · intro h
    unfold retryFailedJob
    rw [h]
  · intro job h hs
    unfold retryFailedJob
    rw [h]
    dsimp only
    rw [if_neg hs]
  · intro job niche h hs hn
    unfold retryFailedJob
    rw [h]
    dsimp only
    rw [if_pos hs, hn]
    dsimp only
    rcases hG : generateAndPostVideo env niche st with ⟨r, st'⟩
    cases r <;> rfl
  · intro job oldVid niche v _ hneq hok
    rw [generateAndPostVideo_ok_id hok]
    exact hneq

/-- The failed job (and its resolvable niche) used by the retry witness. -/
def failedJob : WorkflowJob :=
  { id := "jf", jobType := JobType.generate, status := JobStatus.failed,
    niche := "niche-1", videoId := some "vid-old", createdAt := 0,
    startedAt := some 1, completedAt := some 2, error := some "old failure",
    retryCount := 0 }

def stRetry : DBState := ⟨[], [failedJob], [nicheFull], []⟩

/-- Witness for C6: rejection on a missing job id, and a full fresh run on
the concrete failed job, whose returned id is the fresh one, not the old
`"vid-old"`. -/
theorem C6_retry_witness :
    retryFailedJob baseEnv "missing" stRetry
        = (Except.error "Job not found or not in failed status", stRetry) ∧
    retryFailedJob baseEnv "jf" stRetry
        = ((generateAndPostVideo baseEnv nicheFull stRetry).1.map (fun _ => ()),
           (generateAndPostVideo baseEnv nicheFull stRetry).2) ∧
    (∀ v, (generateAndPostVideo baseEnv nicheFull stRetry).1 = Except.ok v →
      v ≠ "vid-old") :=
  ⟨(C6_retry baseEnv stRetry "missing").1 rfl,
   (C6_retry baseEnv stRetry "jf").2.2.1 failedJob nicheFull rfl rfl rfl,
   fun v hv => (C6_retry baseEnv stRetry "jf").2.2.2 failedJob "vid-old" nicheFull v rfl
     (by decide) hv⟩

/-! ## Claim C3: fan-out enablement -/

/-- A niche whose TikTok credential bundle is present but carries no
access token (the `accessToken` field is optional in the source type). -/
def nicheTikTokNoToken : ContentNiche :=
  { nicheNamed "Random Fun" with socialAccounts :=
      { youtube := none, instagram := none,
        tiktok := some { username := "user", accessToken := none } } }

/-- A `ready` video record with an empty `platforms` list. -/
def videoReady : VideoMetadata :=
  { id := "vid-1", niche := "niche-1", prompt := "a cinematic shot",
    videoUrl := "url-pub", storagePath := "path-1", duration := 8,
    createdAt := 0, status := VideoStatus.ready, platforms := [] }

def stWithVideo : DBState := ⟨[videoReady], [], [], []⟩

/-- Counterexample to claim C3: a niche whose TikTok credential bundle IS
present (but holds no access token) gets NO TikTok post attempt — the
fan-out leaves the store untouched even though the video exists and the
TikTok call would succeed — because the source gates TikTok on
`niche.socialAccounts.tiktok?.accessToken`, not on bundle presence. -/
theorem C3_enablement_counterexample :
    nicheTikTokNoToken.socialAccounts.tiktok.isSome = true ∧
    postToAllPlatforms baseEnv "vid-1" "a description" ["fyp"]
        nicheTikTokNoToken stWithVideo = stWithVideo :=
  ⟨rfl, rfl⟩

/-- One conditional platform attempt appends its entry to the looked-up
video record exactly when its condition holds. -/
theorem postIf_lookup {vid : String} (c : Bool) (f : DBState → DBState) (entry : PlatformPost)
    (hf : ∀ (s : DBState) (w : VideoMetadata), getVideoMetadata s vid = some w →
        getVideoMetadata (f s) vid = some { w with platforms := w.platforms ++ [entry] })
    {st : DBState} {v : VideoMetadata} (hv : getVideoMetadata st vid = some v) :
    getVideoMetadata (if c = true then f st else st) vid
      = some { v with platforms := v.platforms ++ (if c = true then [entry] else []) } := by
  cases c
  · rw [if_neg (by simp), if_neg (by simp), List.append_nil]
    exact hv
  · rw [if_pos rfl, if_pos rfl]
    exact hf st v hv

/-- Claim C3 as amended: for a video record present in the store and all
three external posts succeeding, the fan-out appends exactly one `posted`
entry per ENABLED platform, where YouTube and Instagram are enabled by
bundle presence but TikTok is enabled only by a present, non-empty
`accessToken` inside its bundle. -/
theorem C3_enablement :
    ∀ (env : Env) (d : String) (tags : List String) (niche : ContentNiche)
      (st : DBState) (vid : String) (v : VideoMetadata) (y i t : String),
      env.youtubePost = Except.ok y → env.instagramPost = Except.ok i →
      env.tiktokPost = Except.ok t → getVideoMetadata st vid = some v →
      getVideoMetadata (postToAllPlatforms env vid d tags niche st) vid
        = some { v with platforms := v.platforms
            ++ (if youtubeEnabled niche = true
                then [mkPostedEntry Platform.youtube y env.now] else [])
            ++ (if instagramEnabled niche = true
                then [mkPostedEntry Platform.instagram i env.now] else [])
            ++ (if tiktokEnabled niche = true
                then [mkPostedEntry Platform.tiktok t env.now] else []) } := by
  intro env d tags niche st vid v y i t hyp hip htp hv
  unfold postToAllPlatforms
  dsimp only
  exact postIf_lookup (tiktokEnabled niche) _ _
    (fun s w hw => postToTikTok_lookup htp hw)
    (postIf_lookup (instagramEnabled niche) _ _
      (fun s w hw => postToInstagram_lookup hip hw)
      (postIf_lookup (youtubeEnabled niche) _ _
        (fun s w hw => postToYouTube_lookup hyp hw) hv))

/-- Witness for C3's amended statement: on the all-credentials niche the
fan-out appends the three entries dictated by the enablement conditions. -/
theorem C3_enablement_witness :
    getVideoMetadata (postToAllPlatforms baseEnv "vid-1" "a description" ["fyp"]
        nicheFull stWithVideo) "vid-1"
      = some { videoReady with platforms := videoReady.platforms
          ++ (if youtubeEnabled nicheFull = true
              then [mkPostedEntry Platform.youtube "yt-1" baseEnv.now] else [])
          ++ (if instagramEnabled nicheFull = true
              then [mkPostedEntry Platform.instagram "ig-1" baseEnv.now] else [])
          ++ (if tiktokEnabled nicheFull = true
              then [mkPostedEntry Platform.tiktok "tt-1" baseEnv.now] else []) } :=
  C3_enablement baseEnv "a description" ["fyp"] nicheFull stWithVideo "vid-1"
    videoReady "yt-1" "ig-1" "tt-1" rfl rfl rfl rfl

/-! ## Claim C10: fan-out writes only successful entries -/

/-- Claim C10: every `PlatformPost` entry present after the fan-out either
was already stored before it or has status `posted` with a present post id
and timestamp; and a platform attempt whose external call throws leaves
the store untouched, so the orchestrator never writes a `pending` or
`failed` entry. -/
theorem C10_fanout_only_posted :
    ∀ (env : Env) (vid d : String) (tags : List String) (niche : ContentNiche)
      (st : DBState),
      (∀ v' ∈ (postToAllPlatforms env vid d tags niche st).videos, ∀ p ∈ v'.platforms,
        (∃ v ∈ st.videos, p ∈ v.platforms) ∨
          (p.status = PostStatus.posted ∧ p.postId.isSome = true ∧
            p.postedAt.isSome = true)) ∧
      (∀ e, env.youtubePost = Except.error e → postToYouTube env vid st = st) ∧
      (∀ e, env.instagramPost = Except.error e → postToInstagram env vid st = st) ∧
      (∀ e, env.tiktokPost = Except.error e → postToTikTok env vid st = st) := by
  intro env vid d tags niche st
  refine ⟨?_, fun e he => postToYouTube_err vid st he,
    fun e he => postToInstagram_err vid st he,
    fun e he => postToTikTok_err vid st he⟩
  exact fun v' hv' p hp =>
    postToAllPlatforms_appendsOnlyPosted env vid d tags niche st v' hv' p hp

/-- Environment whose Instagram call throws. -/
def envIgFail : Env := { baseEnv with instagramPost := Except.error "instagram down" }

/-- Witness for C10 on a concrete store: the fan-out output of the
all-credentials niche with a failing Instagram call contains only `posted`
entries, and the failing Instagram attempt alone is a no-op. -/
theorem C10_fanout_only_posted_witness :
    (∀ v' ∈ (postToAllPlatforms envIgFail "vid-1" "a description" ["fyp"]
        nicheFull stWithVideo).videos, ∀ p ∈ v'.platforms,
      (∃ v ∈ stWithVideo.videos, p ∈ v.platforms) ∨
        (p.status = PostStatus.posted ∧ p.postId.isSome = true ∧
          p.postedAt.isSome = true)) ∧
    postToInstagram envIgFail "vid-1" stWithVideo = stWithVideo :=
  ⟨(C10_fanout_only_posted envIgFail "vid-1" "a description" ["fyp"]
      nicheFull stWithVideo).1,
    (C10_fanout_only_posted envIgFail "vid-1" "a description" ["fyp"]
      nicheFull stWithVideo).2.2.1 "instagram down" rfl⟩

/-! ## Claim C1: partial-failure isolation -/

@[simp] theorem getVideoMetadata_dbUpdateJobStatus (st : DBState) (jid : String)
    (s : JobStatus) (e : Option String) (n : Nat) (vid : String) :
    getVideoMetadata (dbUpdateJobStatus st jid s e n) vid = getVideoMetadata st vid := rfl

@[simp] theorem getJob_dbUpdateVideoStatus (st : DBState) (vid : String)
    (s : VideoStatus) (jid : String) :
    getJob (dbUpdateVideoStatus st vid s) jid = getJob st jid := rfl

/-!
`Promise.allSettled` (line 166) runs the per-platform attempts concurrently
on the single-threaded event loop: control can switch between branches at
every `await`.  Each successful attempt awaits `getVideoMetadata` (a read)
and later `saveVideoMetadata` (a whole-document write of the record it
captured, with its own entry pushed) with no transaction or merge, so the
store-visible outcome of the fan-out depends on how these atomic read and
write actions interleave.  The model below executes the three branches'
remaining actions under an explicit schedule (a list of branch choices);
after the schedule, `fanDrain` settles every remaining action — allSettled
resolves only once all branches settle — in the serialized order.  The nil
schedule therefore yields the fully serialized execution. -/

inductive FanAction where
  | read
  | write
deriving DecidableEq, Repr

/-- Store actions of the YouTube branch (lines 172-205): the upload comes
first, so a throwing call performs no store action; a successful call
reads, then writes. -/
def ytSteps (env : Env) (niche : ContentNiche) : List FanAction :=
  if youtubeEnabled niche = true then
    match env.youtubePost with
    | Except.ok _ => [FanAction.read, FanAction.write]
    | Except.error _ => []
  else []

/-- Store actions of the Instagram branch (lines 210-244): the read comes
first; a throwing call (or a missing record) then performs no write. -/
def igSteps (env : Env) (niche : ContentNiche) : List FanAction :=
  if instagramEnabled niche = true then
    match env.instagramPost with
    | Except.ok _ => [FanAction.read, FanAction.write]
    | Except.error _ => [FanAction.read]
  else []

/-- Store actions of the TikTok branch (lines 249-285): same shape as the
YouTube branch. -/
def ttSteps (env : Env) (niche : ContentNiche) : List FanAction :=
  if tiktokEnabled niche = true then
    match env.tiktokPost with
    | Except.ok _ => [FanAction.read, FanAction.write]
    | Except.error _ => []
  else []

/-- The entry a branch's write step pushes (present exactly when its
external call succeeded). -/
def postEntryFor (env : Env) : Platform → Option PlatformPost
  | Platform.youtube =>
    match env.youtubePost with
    | Except.ok y => some (mkPostedEntry Platform.youtube y env.now)
    | Except.error _ => none
  | Platform.instagram =>
    match env.instagramPost with
    | Except.ok i => some (mkPostedEntry Platform.instagram i env.now)
    | Except.error _ => none
  | Platform.tiktok =>
    match env.tiktokPost with
    | Except.ok t => some (mkPostedEntry Platform.tiktok t env.now)
    | Except.error _ => none

/-- Execution state of the concurrent fan-out: the store, each branch's
remaining actions, and the record each branch captured with its read. -/
structure FanExec where
  store : DBState
  ytRem : List FanAction
  igRem : List FanAction
  ttRem : List FanAction
  ytCap : Option VideoMetadata
  igCap : Option VideoMetadata
  ttCap : Option VideoMetadata

/-- One scheduling step: the chosen branch performs its next store action.
A read captures the current lookup; a write re-persists the CAPTURED
record with the branch's entry pushed — the whole-document
`saveVideoMetadata` of the source, which overwrites entries appended to
the document by another branch after this branch's read. -/
def fanStep (env : Env) (videoId : String) (s : FanExec) : Platform → FanExec
  | Platform.youtube =>
    match s.ytRem with
    | [] => s
    | FanAction.read :: rest =>
      { s with ytRem := rest, ytCap := getVideoMetadata s.store videoId }
    | FanAction.write :: rest =>
      match s.ytCap, postEntryFor env Platform.youtube with
      | some video, some entry =>
        { s with ytRem := rest, store := (saveVideoMetadata s.store
            { video with platforms := video.platforms ++ [entry] }) }
      | _, _ => { s with ytRem := rest }
  | Platform.instagram =>
    match s.igRem with
    | [] => s
    | FanAction.read :: rest =>
      { s with igRem := rest, igCap := getVideoMetadata s.store videoId }
    | FanAction.write :: rest =>
      match s.igCap, postEntryFor env Platform.instagram with
      | some video, some entry =>
        { s with igRem := rest, store := (saveVideoMetadata s.store
            { video with platforms := video.platforms ++ [entry] }) }
      | _, _ => { s with igRem := rest }
  | Platform.tiktok =>
    match s.ttRem with
    | [] => s
    | FanAction.read :: rest =>
      { s with ttRem := rest, ttCap := getVideoMetadata s.store videoId }
    | FanAction.write :: rest =>
      match s.ttCap, postEntryFor env Platform.tiktok with
      | some video, some entry =>
        { s with ttRem := rest, store := (saveVideoMetadata s.store
            { video with platforms := video.platforms ++ [entry] }) }
      | _, _ => { s with ttRem := rest }

/-- Run a schedule of branch choices. -/
def fanExec (env : Env) (videoId : String) (schedule : List Platform) (s : FanExec) :
    FanExec :=
  schedule.foldl (fanStep env videoId) s

/-- Initial execution state: each branch holds its pending actions. -/
def fanInit (env : Env) (niche : ContentNiche) (st : DBState) : FanExec :=
  { store := st, ytRem := ytSteps env niche, igRem := igSteps env niche,
    ttRem := ttSteps env niche, ytCap := none, igCap := none, ttCap := none }

/-- `Promise.allSettled` resolves only after every branch settles: actions
not driven by the explicit schedule complete afterwards, in the serialized
order (each branch has at most two actions). -/
def fanDrain (env : Env) (videoId : String) (s : FanExec) : FanExec :=
  fanExec env videoId [Platform.youtube, Platform.youtube, Platform.instagram,
    Platform.instagram, Platform.tiktok, Platform.tiktok] s

/-- `postToAllPlatforms` under an explicit interleaving of the branches'
store actions; the nil schedule is the fully serialized execution. -/
def postToAllPlatformsSched (env : Env) (videoId : String)
    (_description : String) (_hashtags : List String) (niche : ContentNiche)
    (schedule : List Platform) (st : DBState) : DBState :=
  (fanDrain env videoId (fanExec env videoId schedule (fanInit env niche st))).store

/-- `runBody` with the schedule-sensitive fan-out in step 6. -/
def runBodySched (env : Env) (niche : ContentNiche) (schedule : List Platform)
    (jobId : String) (st : DBState) :
    Except (String × DBState) (String × DBState) :=
  match (if env.topics.length > 0 then
           match env.saveTopics with
           | Except.ok _ => Except.ok (dbSaveTrendingTopics st env.topics)
           | Except.error e => Except.error (e, st)
         else Except.ok st : Except (String × DBState) DBState) with
  | Except.error e => Except.error e
  | Except.ok st =>
    let _previousPrompts := (getVideosByNiche st niche.id 10).map (fun v => v.prompt)
    let _style := getStyleFromNiche niche
    match liftE st env.promptResult with
    | Except.error e => Except.error e
    | Except.ok promptResponse =>
      let videoId := env.freshVideoId
      match liftE st env.videoGen with
      | Except.error e => Except.error e
      | Except.ok videoResponse =>
        match liftE st env.download with
        | Except.error e => Except.error e
        | Except.ok _ =>
          match liftE st env.upload with
          | Except.error e => Except.error e
          | Except.ok (publicUrl, storagePath) =>
            let st := saveVideoMetadata st
              (mkRunVideoMetadata env niche promptResponse videoResponse publicUrl storagePath)
            let st := postToAllPlatformsSched env videoId promptResponse.description
              promptResponse.suggestedHashtags niche schedule st
            let st := dbUpdateJobStatus st jobId JobStatus.completed none env.now
            let st := dbUpdateVideoStatus st videoId VideoStatus.posted
            Except.ok (videoId, st)

/-- `generateAndPostVideo` with the schedule-sensitive fan-out. -/
def generateAndPostVideoSched (env : Env) (niche : ContentNiche)
    (schedule : List Platform) (st : DBState) : Except String String × DBState :=
  let st := createJob st (initialJob env niche)
  let st := dbUpdateJobStatus st env.freshJobId JobStatus.running none env.now
  match runBodySched env niche schedule env.freshJobId st with
  | Except.ok (videoId, st') => (Except.ok videoId, st')
  | Except.error (msg, st') =>
    (Except.error msg, dbUpdateJobStatus st' env.freshJobId JobStatus.failed (some msg) env.now)

theorem fanStep_jobs (env : Env) (vid : String) (s : FanExec) (p : Platform) :
    (fanStep env vid s p).store.jobs = s.store.jobs := by
  cases p <;> (simp only [fanStep]; repeat' split) <;> simp

theorem fanExec_jobs (env : Env) (vid : String) :
    ∀ (schedule : List Platform) (s : FanExec),
      (fanExec env vid schedule s).store.jobs = s.store.jobs := by
  intro schedule
  induction schedule with
  | nil => intro s; rfl
  | cons p rest ih =>
    intro s
    show (fanExec env vid rest (fanStep env vid s p)).store.jobs = _
    rw [ih, fanStep_jobs]

theorem postToAllPlatformsSched_jobs (env : Env) (vid d : String) (tags : List String)
    (niche : ContentNiche) (schedule : List Platform) (st : DBState) :
    (postToAllPlatformsSched env vid d tags niche schedule st).jobs = st.jobs := by
  unfold postToAllPlatformsSched fanDrain
  rw [fanExec_jobs, fanExec_jobs]
  rfl

/-- Reduction of `runBodySched` when every step up to the fan-out succeeds. -/
theorem runBodySched_ok {env : Env} (niche : ContentNiche) (schedule : List Platform)
    (jobId : String) (st : DBState)
    {pr : PromptResponse} {vg : VideoGenResponse} {pu sp : String}
    (hsv : env.saveTopics = Except.ok ())
    (hpr : env.promptResult = Except.ok pr) (hvg : env.videoGen = Except.ok vg)
    (hdl : env.download = Except.ok ()) (hup : env.upload = Except.ok (pu, sp)) :
    ∃ stT : DBState, stT.videos = st.videos ∧ stT.jobs = st.jobs ∧ stT.niches = st.niches ∧
      runBodySched env niche schedule jobId st = Except.ok (env.freshVideoId,
        dbUpdateVideoStatus
          (dbUpdateJobStatus
            (postToAllPlatformsSched env env.freshVideoId pr.description
              pr.suggestedHashtags niche schedule
              (saveVideoMetadata stT (mkRunVideoMetadata env niche pr vg pu sp)))
            jobId JobStatus.completed none env.now)
          env.freshVideoId VideoStatus.posted) := by
  by_cases hT : env.topics.length > 0
  · refine ⟨dbSaveTrendingTopics st env.topics, by simp, by simp, by simp, ?_⟩
    unfold runBodySched
    rw [if_pos hT, hsv, hpr, hvg, hdl, hup]
    rfl
  · refine ⟨st, rfl, rfl, rfl, ?_⟩
    unfold runBodySched
    rw [if_neg hT, hpr, hvg, hdl, hup]
    rfl

/-- Serialized execution of the fan-out in the C1 scenario (YouTube and
TikTok succeed, Instagram throws): each successful read-modify-write
completes before the other begins, so both entries survive. -/
theorem fanoutSched_serialized {env : Env} {niche : ContentNiche} {st : DBState}
    {vid : String} {v : VideoMetadata} {y emsg t : String} (d : String) (tags : List String)
    (byt : youtubeEnabled niche = true) (big : instagramEnabled niche = true)
    (btk : tiktokEnabled niche = true)
    (hyp : env.youtubePost = Except.ok y) (hip : env.instagramPost = Except.error emsg)
    (htp : env.tiktokPost = Except.ok t)
    (hv : getVideoMetadata st vid = some v) :
    getVideoMetadata (postToAllPlatformsSched env vid d tags niche [] st) vid
      = some { v with platforms := v.platforms
          ++ [mkPostedEntry Platform.youtube y env.now]
          ++ [mkPostedEntry Platform.tiktok t env.now] } := by
  have hvid : v.id = vid := id_of_getVideoMetadata hv
  have hInit : fanInit env niche st =
      ⟨st, [FanAction.read, FanAction.write], [FanAction.read],
        [FanAction.read, FanAction.write], none, none, none⟩ := by
    simp only [fanInit, ytSteps, igSteps, ttSteps, if_pos byt, if_pos big, if_pos btk,
      hyp, hip, htp]
  have h1 : fanStep env vid
      ⟨st, [FanAction.read, FanAction.write], [FanAction.read],
        [FanAction.read, FanAction.write], none, none, none⟩ Platform.youtube =
      ⟨st, [FanAction.write], [FanAction.read],
        [FanAction.read, FanAction.write], some v, none, none⟩ := by
    simp only [fanStep, hv]
  have h2 : fanStep env vid
      ⟨st, [FanAction.write], [FanAction.read],
        [FanAction.read, FanAction.write], some v, none, none⟩ Platform.youtube =
      ⟨saveVideoMetadata st
          { v with platforms := v.platforms ++ [mkPostedEntry Platform.youtube y env.now] },
        [], [FanAction.read], [FanAction.read, FanAction.write], some v, none, none⟩ := by
    simp only [fanStep, postEntryFor, hyp]
  have hS1 : getVideoMetadata (saveVideoMetadata st
      { v with platforms := v.platforms ++ [mkPostedEntry Platform.youtube y env.now] }) vid
      = some { v with platforms := v.platforms ++ [mkPostedEntry Platform.youtube y env.now] } :=
    getVideoMetadata_save st _ vid
      (show v.id = vid from hvid)
  have h3 : fanStep env vid
      ⟨saveVideoMetadata st
          { v with platforms := v.platforms ++ [mkPostedEntry Platform.youtube y env.now] },
        [], [FanAction.read], [FanAction.read, FanAction.write], some v, none, none⟩
        Platform.instagram =
      ⟨saveVideoMetadata st
          { v with platforms := v.platforms ++ [mkPostedEntry Platform.youtube y env.now] },
        [], [], [FanAction.read, FanAction.write], some v,
        some { v with platforms := v.platforms ++ [mkPostedEntry Platform.youtube y env.now] },
        none⟩ := by
    simp only [fanStep, hS1]
  have h4 : fanStep env vid
      ⟨saveVideoMetadata st
          { v with platforms := v.platforms ++ [mkPostedEntry Platform.youtube y env.now] },
        [], [], [FanAction.read, FanAction.write], some v,
        some { v with platforms := v.platforms ++ [mkPostedEntry Platform.youtube y env.now] },
        none⟩ Platform.instagram =
      ⟨saveVideoMetadata st
          { v with platforms := v.platforms ++ [mkPostedEntry Platform.youtube y env.now] },
        [], [], [FanAction.read, FanAction.write], some v,
        some { v with platforms := v.platforms ++ [mkPostedEntry Platform.youtube y env.now] },
        none⟩ := rfl
  have h5 : fanStep env vid
      ⟨saveVideoMetadata st
          { v with platforms := v.platforms ++ [mkPostedEntry Platform.youtube y env.now] },
        [], [], [FanAction.read, FanAction.write], some v,
        some { v with platforms := v.platforms ++ [mkPostedEntry Platform.youtube y env.now] },
        none⟩ Platform.tiktok =
      ⟨saveVideoMetadata st
          { v with platforms := v.platforms ++ [mkPostedEntry Platform.youtube y env.now] },
        [], [], [FanAction.write], some v,
        some { v with platforms := v.platforms ++ [mkPostedEntry Platform.youtube y env.now] },
        some { v with platforms := v.platforms ++ [mkPostedEntry Platform.youtube y env.now] }⟩ := by
    simp only [fanStep, hS1]
  have h6 : fanStep env vid
      ⟨saveVideoMetadata st
          { v with platforms := v.platforms ++ [mkPostedEntry Platform.youtube y env.now] },
        [], [], [FanAction.write], some v,
        some { v with platforms := v.platforms ++ [mkPostedEntry Platform.youtube y env.now] },
        some { v with platforms := v.platforms ++ [mkPostedEntry Platform.youtube y env.now] }⟩
        Platform.tiktok =
      ⟨saveVideoMetadata (saveVideoMetadata st
          { v with platforms := v.platforms ++ [mkPostedEntry Platform.youtube y env.now] })
          { v with platforms := v.platforms ++ [mkPostedEntry Platform.youtube y env.now]
              ++ [mkPostedEntry Platform.tiktok t env.now] },
        [], [], [], some v,
        some { v with platforms := v.platforms ++ [mkPostedEntry Platform.youtube y env.now] },
        some { v with platforms := v.platforms ++ [mkPostedEntry Platform.youtube y env.now] }⟩ := by
    simp only [fanStep, postEntryFor, htp]
  unfold postToAllPlatformsSched fanDrain fanExec
  dsimp only [List.foldl]
  rw [hInit, h1, h2, h3, h4, h5, h6]
  exact getVideoMetadata_save _ _ vid (show v.id = vid from hvid)

/-- Lost-update execution of the same scenario: both successful branches
read before either writes, so the second write (TikTok) re-persists a
snapshot that predates YouTube's append — last write wins and the YouTube
entry is lost. -/
theorem fanoutSched_lost {env : Env} {niche : ContentNiche} {st : DBState}
    {vid : String} {v : VideoMetadata} {y emsg t : String} (d : String) (tags : List String)
    (byt : youtubeEnabled niche = true) (big : instagramEnabled niche = true)
    (btk : tiktokEnabled niche = true)
    (hyp : env.youtubePost = Except.ok y) (hip : env.instagramPost = Except.error emsg)
    (htp : env.tiktokPost = Except.ok t)
    (hv : getVideoMetadata st vid = some v) :
    getVideoMetadata (postToAllPlatformsSched env vid d tags niche
        [Platform.youtube, Platform.tiktok, Platform.youtube, Platform.tiktok] st) vid
      = some { v with platforms := v.platforms
          ++ [mkPostedEntry Platform.tiktok t env.now] } := by
  have hvid : v.id = vid := id_of_getVideoMetadata hv
  have hInit : fanInit env niche st =
      ⟨st, [FanAction.read, FanAction.write], [FanAction.read],
        [FanAction.read, FanAction.write], none, none, none⟩ := by
    simp only [fanInit, ytSteps, igSteps, ttSteps, if_pos byt, if_pos big, if_pos btk,
      hyp, hip, htp]
  have g1 : fanStep env vid
      ⟨st, [FanAction.read, FanAction.write], [FanAction.read],
        [FanAction.read, FanAction.write], none, none, none⟩ Platform.youtube =
      ⟨st, [FanAction.write], [FanAction.read],
        [FanAction.read, FanAction.write], some v, none, none⟩ := by
    simp only [fanStep, hv]
  have g2 : fanStep env vid
      ⟨st, [FanAction.write], [FanAction.read],
        [FanAction.read, FanAction.write], some v, none, none⟩ Platform.tiktok =
      ⟨st, [FanAction.write], [FanAction.read], [FanAction.write], some v, none, some v⟩ := by
    simp only [fanStep, hv]
  have g3 : fanStep env vid
      ⟨st, [FanAction.write], [FanAction.read], [FanAction.write], some v, none, some v⟩
        Platform.youtube =
      ⟨saveVideoMetadata st
          { v with platforms := v.platforms ++ [mkPostedEntry Platform.youtube y env.now] },
        [], [FanAction.read], [FanAction.write], some v, none, some v⟩ := by
    simp only [fanStep, postEntryFor, hyp]
  have g4 : fanStep env vid
      ⟨saveVideoMetadata st
          { v with platforms := v.platforms ++ [mkPostedEntry Platform.youtube y env.now] },
        [], [FanAction.read], [FanAction.write], some v, none, some v⟩ Platform.tiktok =
      ⟨saveVideoMetadata (saveVideoMetadata st
          { v with platforms := v.platforms ++ [mkPostedEntry Platform.youtube y env.now] })
          { v with platforms := v.platforms ++ [mkPostedEntry Platform.tiktok t env.now] },
        [], [FanAction.read], [], some v, none, some v⟩ := by
    simp only [fanStep, postEntryFor, htp]
  have hS2 : getVideoMetadata (saveVideoMetadata (saveVideoMetadata st
      { v with platforms := v.platforms ++ [mkPostedEntry Platform.youtube y env.now] })
      { v with platforms := v.platforms ++ [mkPostedEntry Platform.tiktok t env.now] }) vid
      = some { v with platforms := v.platforms ++ [mkPostedEntry Platform.tiktok t env.now] } :=
    getVideoMetadata_save _ _ vid (show v.id = vid from hvid)
  have gd1 : fanStep env vid
      ⟨saveVideoMetadata (saveVideoMetadata st
          { v with platforms := v.platforms ++ [mkPostedEntry Platform.youtube y env.now] })
          { v with platforms := v.platforms ++ [mkPostedEntry Platform.tiktok t env.now] },
        [], [FanAction.read], [], some v, none, some v⟩ Platform.youtube =
      ⟨saveVideoMetadata (saveVideoMetadata st
          { v with platforms := v.platforms ++ [mkPostedEntry Platform.youtube y env.now] })
          { v with platforms := v.platforms ++ [mkPostedEntry Platform.tiktok t env.now] },
        [], [FanAction.read], [], some v, none, some v⟩ := rfl
  have gd2 : fanStep env vid
      ⟨saveVideoMetadata (saveVideoMetadata st
          { v with platforms := v.platforms ++ [mkPostedEntry Platform.youtube y env.now] })
          { v with platforms := v.platforms ++ [mkPostedEntry Platform.tiktok t env.now] },
        [], [FanAction.read], [], some v, none, some v⟩ Platform.instagram =
      ⟨saveVideoMetadata (saveVideoMetadata st
          { v with platforms := v.platforms ++ [mkPostedEntry Platform.youtube y env.now] })
          { v with platforms := v.platforms ++ [mkPostedEntry Platform.tiktok t env.now] },
        [], [], [], some v,
        some { v with platforms := v.platforms ++ [mkPostedEntry Platform.tiktok t env.now] },
        some v⟩ := by
    simp only [fanStep, hS2]
  have gd3 : fanStep env vid
      ⟨saveVideoMetadata (saveVideoMetadata st
          { v with platforms := v.platforms ++ [mkPostedEntry Platform.youtube y env.now] })
          { v with platforms := v.platforms ++ [mkPostedEntry Platform.tiktok t env.now] },
        [], [], [], some v,
        some { v with platforms := v.platforms ++ [mkPostedEntry Platform.tiktok t env.now] },
        some v⟩ Platform.instagram =
      ⟨saveVideoMetadata (saveVideoMetadata st
          { v with platforms := v.platforms ++ [mkPostedEntry Platform.youtube y env.now] })
          { v with platforms := v.platforms ++ [mkPostedEntry Platform.tiktok t env.now] },
        [], [], [], some v,
        some { v with platforms := v.platforms ++ [mkPostedEntry Platform.tiktok t env.now] },
        some v⟩ := rfl
  have gd4 : fanStep env vid
      ⟨saveVideoMetadata (saveVideoMetadata st
          { v with platforms := v.platforms ++ [mkPostedEntry Platform.youtube y env.now] })
          { v with platforms := v.platforms ++ [mkPostedEntry Platform.tiktok t env.now] },
        [], [], [], some v,
        some { v with platforms := v.platforms ++ [mkPostedEntry Platform.tiktok t env.now] },
        some v⟩ Platform.tiktok =
      ⟨saveVideoMetadata (saveVideoMetadata st
          { v with platforms := v.platforms ++ [mkPostedEntry Platform.youtube y env.now] })
          { v with platforms := v.platforms ++ [mkPostedEntry Platform.tiktok t env.now] },
        [], [], [], some v,
        some { v with platforms := v.platforms ++ [mkPostedEntry Platform.tiktok t env.now] },
        some v⟩ := rfl
  unfold postToAllPlatformsSched fanDrain fanExec
  dsimp only [List.foldl]
  rw [hInit, g1, g2, g3, g4, gd1, gd1, gd2, gd3, gd4, gd4]
  exact hS2

/-- Environment of the C1 scenario: Instagram throws, the rest succeed. -/
def envC1 : Env := { baseEnv with instagramPost := Except.error "instagram down" }

/-- Counterexample to claim C1: in the claimed scenario (all three
credentials, Instagram throws, YouTube and TikTok succeed) under the
interleaving in which both successful branches read the document before
either writes it — both platform calls resolve, then their continuations
run — the run still returns normally and the job completes, but TikTok's
whole-document write persists a snapshot that predates YouTube's append,
so the final record holds exactly ONE posted entry, not the claimed two. -/
theorem C1_lost_update_counterexample :
    (generateAndPostVideoSched envC1 nicheFull
        [Platform.youtube, Platform.tiktok, Platform.youtube, Platform.tiktok]
        DBState.init).1 = Except.ok "vid-1" ∧
    (getJob (generateAndPostVideoSched envC1 nicheFull
        [Platform.youtube, Platform.tiktok, Platform.youtube, Platform.tiktok]
        DBState.init).2 "job-1").map (fun j => j.status) = some JobStatus.completed ∧
    (getVideoMetadata (generateAndPostVideoSched envC1 nicheFull
        [Platform.youtube, Platform.tiktok, Platform.youtube, Platform.tiktok]
        DBState.init).2 "vid-1").map (fun v => v.platforms)
      = some [mkPostedEntry Platform.tiktok "tt-1" 7] :=
  ⟨rfl, rfl, rfl⟩

/-- Claim C1 as amended: in the same scenario, under EVERY interleaving of
the fan-out the run completes without throwing and the job ends
`completed`; under the serialized interleaving (each successful
read-modify-write completes before the other begins) the final record
holds exactly the two posted entries (YouTube and TikTok); but under the
interleaving where both successful branches read before either writes,
the last write wins and exactly one posted entry (TikTok's) remains —
the store offers no transaction, so the program does not guarantee
exactly two entries. -/
theorem C1_partial_failure_isolation_amended :
    ∀ (env : Env) (niche : ContentNiche) (st : DBState)
      (yta : YouTubeAccount) (iga : InstagramAccount) (tka : TikTokAccount)
      (tok : String) (pr : PromptResponse) (vg : VideoGenResponse)
      (pu sp y emsg t : String) (schedule : List Platform),
      niche.socialAccounts.youtube = some yta →
      niche.socialAccounts.instagram = some iga →
      niche.socialAccounts.tiktok = some tka →
      tka.accessToken = some tok → tok ≠ "" →
      env.saveTopics = Except.ok () → env.promptResult = Except.ok pr →
      env.videoGen = Except.ok vg → env.download = Except.ok () →
      env.upload = Except.ok (pu, sp) →
      env.youtubePost = Except.ok y → env.instagramPost = Except.error emsg →
      env.tiktokPost = Except.ok t →
      getJob st env.freshJobId = none →
      ((generateAndPostVideoSched env niche schedule st).1
          = Except.ok env.freshVideoId ∧
        (∃ j, getJob (generateAndPostVideoSched env niche schedule st).2
              env.freshJobId = some j ∧
          j.status = JobStatus.completed ∧ j.completedAt = some env.now)) ∧
      (∃ v, getVideoMetadata (generateAndPostVideoSched env niche [] st).2
            env.freshVideoId = some v ∧
        v.status = VideoStatus.posted ∧
        v.platforms = [mkPostedEntry Platform.youtube y env.now,
          mkPostedEntry Platform.tiktok t env.now] ∧
        (∀ p ∈ v.platforms, p.status = PostStatus.posted)) ∧
      (∃ v, getVideoMetadata (generateAndPostVideoSched env niche
            [Platform.youtube, Platform.tiktok, Platform.youtube, Platform.tiktok] st).2
            env.freshVideoId = some v ∧
        v.status = VideoStatus.posted ∧
        v.platforms = [mkPostedEntry Platform.tiktok t env.now]) := by
  intro env niche st yta iga tka tok pr vg pu sp y emsg t schedule
    hyt hig htk htok htok2 hsv hpr hvg hdl hup hyp hip htp hfj
  have byt : youtubeEnabled niche = true := by simp [youtubeEnabled, hyt]
  have big : instagramEnabled niche = true := by simp [instagramEnabled, hig]
  have btk : tiktokEnabled niche = true := by simp [tiktokEnabled, htk, htok, htok2]
  obtain ⟨stA, hAv, hAj, hAn, hBodyA⟩ := runBodySched_ok niche schedule env.freshJobId
    (dbUpdateJobStatus (createJob st (initialJob env niche)) env.freshJobId
      JobStatus.running none env.now) hsv hpr hvg hdl hup
  obtain ⟨stB, hBv, hBj, hBn, hBodyB⟩ := runBodySched_ok niche [] env.freshJobId
    (dbUpdateJobStatus (createJob st (initialJob env niche)) env.freshJobId
      JobStatus.running none env.now) hsv hpr hvg hdl hup
  obtain ⟨stC, hCv, hCj, hCn, hBodyC⟩ := runBodySched_ok niche
    [Platform.youtube, Platform.tiktok, Platform.youtube, Platform.tiktok] env.freshJobId
    (dbUpdateJobStatus (createJob st (initialJob env niche)) env.freshJobId
      JobStatus.running none env.now) hsv hpr hvg hdl hup
  unfold generateAndPostVideoSched
  dsimp only
  rw [hBodyA, hBodyB, hBodyC]
  dsimp only
  refine ⟨⟨rfl, ?_⟩, ?_, ?_⟩
  · refine ⟨updateJobStatusRecord (updateJobStatusRecord (initialJob env niche)
        JobStatus.running none env.now) JobStatus.completed none env.now, ?_,
      (updateJobStatusRecord_completed _ _).1, (updateJobStatusRecord_completed _ _).2.1⟩
    rw [getJob_dbUpdateVideoStatus, getJob_dbUpdateJobStatus,
      getJob_congr (postToAllPlatformsSched_jobs env env.freshVideoId pr.description
        pr.suggestedHashtags niche schedule
        (saveVideoMetadata stA (mkRunVideoMetadata env niche pr vg pu sp))),
      getJob_congr (saveVideoMetadata_jobs stA (mkRunVideoMetadata env niche pr vg pu sp)),
      getJob_congr hAj, getJob_afterStart env niche st hfj]
    rfl
  · have hv0 : getVideoMetadata
        (saveVideoMetadata stB (mkRunVideoMetadata env niche pr vg pu sp))
        env.freshVideoId = some (mkRunVideoMetadata env niche pr vg pu sp) :=
      getVideoMetadata_save stB _ env.freshVideoId rfl
    refine ⟨{ mkRunVideoMetadata env niche pr vg pu sp with
        platforms := [mkPostedEntry Platform.youtube y env.now,
          mkPostedEntry Platform.tiktok t env.now],
        status := VideoStatus.posted }, ?_, rfl, rfl, ?_⟩
    · rw [getVideoMetadata_dbUpdateVideoStatus, getVideoMetadata_dbUpdateJobStatus,
        fanoutSched_serialized pr.description pr.suggestedHashtags byt big btk
          hyp hip htp hv0]
      rfl
    · intro p hp
      cases hp with
      | head => rfl
      | tail _ hp2 =>
        cases hp2 with
        | head => rfl
        | tail _ hp3 => cases hp3
  · have hv0 : getVideoMetadata
        (saveVideoMetadata stC (mkRunVideoMetadata env niche pr vg pu sp))
        env.freshVideoId = some (mkRunVideoMetadata env niche pr vg pu sp) :=
      getVideoMetadata_save stC _ env.freshVideoId rfl
    refine ⟨{ mkRunVideoMetadata env niche pr vg pu sp with
        platforms := [mkPostedEntry Platform.tiktok t env.now],
        status := VideoStatus.posted }, ?_, rfl, rfl⟩
    rw [getVideoMetadata_dbUpdateVideoStatus, getVideoMetadata_dbUpdateJobStatus,
      fanoutSched_lost pr.description pr.suggestedHashtags byt big btk hyp hip htp hv0]
    rfl

/-- Witness for C1's amended statement on the all-credentials niche
against an empty store (run under the serialized schedule). -/
theorem C1_partial_failure_isolation_amended_witness :
    ((generateAndPostVideoSched envC1 nicheFull [] DBState.init).1
        = Except.ok "vid-1" ∧
      (∃ j, getJob (generateAndPostVideoSched envC1 nicheFull [] DBState.init).2
            "job-1" = some j ∧
        j.status = JobStatus.completed ∧ j.completedAt = some 7)) ∧
    (∃ v, getVideoMetadata (generateAndPostVideoSched envC1 nicheFull []
          DBState.init).2 "vid-1" = some v ∧
      v.status = VideoStatus.posted ∧
      v.platforms = [mkPostedEntry Platform.youtube "yt-1" 7,
        mkPostedEntry Platform.tiktok "tt-1" 7] ∧
      (∀ p ∈ v.platforms, p.status = PostStatus.posted)) ∧
    (∃ v, getVideoMetadata (generateAndPostVideoSched envC1 nicheFull
          [Platform.youtube, Platform.tiktok, Platform.youtube, Platform.tiktok]
          DBState.init).2 "vid-1" = some v ∧
      v.status = VideoStatus.posted ∧
      v.platforms = [mkPostedEntry Platform.tiktok "tt-1" 7]) :=
  C1_partial_failure_isolation_amended envC1 nicheFull DBState.init
    { channelId := "chan", refreshToken := "refresh" }
    { accountId := "acct", accessToken := "itoken" }
    { username := "user", accessToken := some "ttoken" } "ttoken"
    promptOk { videoUrl := "url-v", duration := 8 } "url-pub" "path-1"
    "yt-1" "instagram down" "tt-1" []
    rfl rfl rfl rfl (by decide) rfl rfl rfl rfl rfl rfl rfl rfl rfl

end DS
